import Mathlib

/-!
Shallow embedding of the terminal-flow animation/color engine
(`terminal_flow/colors/*.py`, `terminal_flow/animation_base.py`,
`terminal_flow/modes/*.py`) and proofs about the behaviour its
specification claims.

Conventions of the embedding:
* Python floats are modelled as exact rationals (`ℚ`); float literals keep
  their decimal value.  Transcendental platform routines (`math.sin`,
  `math.sqrt`, `math.atan2`) are not computable, so definitions that use
  them are parameterised by the routine; theorems about actual values
  instantiate the parameter with `Real.sin` / `Real.sqrt` on `ℝ`.
* Python `int()` is truncation toward zero, `//` is floor division,
  `x % 1.0` is the float modulus (non-negative), `a % n` on integers with
  positive `n` is the non-negative remainder.
* Python dicts (insertion ordered, unique keys) are modelled as
  association lists; `d[k] = v` updates in place when the key is present
  and appends otherwise, matching dict iteration order.
* Fallible operations return `Except PyErr`; a Python exception that the
  caller does not catch is `Except.error`.
-/

namespace TerminalFlow

/- Batteries marks rational arithmetic `@[irreducible]`; the embedding
evaluates concrete rational computations in counterexamples and
witnesses, so restore the default transparency. -/
attribute [local semireducible] Rat.sub Rat.add Rat.mul Rat.inv Rat.ofScientific

/-- Python `int(x)` on a float/rational: truncation toward zero. -/
def pyInt (x : ℚ) : ℤ := if 0 ≤ x then ⌊x⌋ else -⌊-x⌋

/-- Python `x % 1.0` on floats, exact rational semantics: `x - ⌊x⌋ ∈ [0,1)`. -/
def pyMod1 (x : ℚ) : ℚ := x - ⌊x⌋

/-- Python `a % n` on integers, for a positive modulus `n` (the result is
the non-negative remainder, as in Python). -/
def pyMod (a : ℤ) (n : ℕ) : ℕ := (a % (n : ℤ)).toNat

/-- Python `max(a, b)` on floats (Mathlib's lattice `max` on `ℚ` does
not reduce in the kernel, so the clamp helpers use an explicit `ite`). -/
def pyMax (a b : ℚ) : ℚ := if a ≤ b then b else a

/-- Python `min(a, b)` on floats. -/
def pyMin (a b : ℚ) : ℚ := if a ≤ b then a else b

/-- Python `max(0.0, min(1.0, x))`. -/
def clamp01 (x : ℚ) : ℚ := pyMax 0 (pyMin 1 x)

/-- Lookup in an association list modelling a Python dict. -/
def dictGet {κ β : Type} [DecidableEq κ] (d : List (κ × β)) (k : κ) : Option β :=
  match d with
  | [] => none
  | (k', v) :: rest => if k = k' then some v else dictGet rest k

/-- Python `d[k] = v` on a dict: update in place if present, else append
(preserving dict insertion order). -/
def dictSet {κ β : Type} [DecidableEq κ] (d : List (κ × β)) (k : κ) (v : β) :
    List (κ × β) :=
  match d with
  | [] => [(k, v)]
  | (k', v') :: rest => if k = k' then (k, v) :: rest else (k', v') :: dictSet rest k v

/-- Python `del d[k]` on a dict (key assumed present; removing a missing
key is a no-op here, the sources only delete present keys). -/
def dictDel {κ β : Type} [DecidableEq κ] (d : List (κ × β)) (k : κ) : List (κ × β) :=
  match d with
  | [] => []
  | (k', v') :: rest => if k = k' then rest else (k', v') :: dictDel rest k

/-- The first entry (in dict iteration = insertion order) with minimal
value; helper for `dictMinKey`. -/
def dictMinEntry {κ : Type} : List (κ × ℚ) → Option (κ × ℚ)
  | [] => none
  | (k, v) :: rest =>
    match dictMinEntry rest with
    | none => some (k, v)
    | some (k', v') => if v ≤ v' then some (k, v) else some (k', v')

/-- Python `min(d.keys(), key=lambda k: d[k])`: the first key (in dict
iteration = insertion order) whose value is minimal. -/
def dictMinKey {κ : Type} (d : List (κ × ℚ)) : Option κ :=
  (dictMinEntry d).map Prod.fst

/-- Exceptions of the Python sources that the embedding distinguishes. -/
inductive PyErr : Type
  | valueError
  | attributeError (name : String)
  | zeroDivisionError
  deriving DecidableEq, Repr

/-! ## ColorGenerator (`terminal_flow/colors/generator.py`) -/

/-- An RGB triple; the Python sources use plain int 3-tuples. -/
abbrev RGB := ℤ × ℤ × ℤ

/-- `colorsys.hsv_to_rgb` from the Python standard library (called by
`ColorGenerator.hsv_to_rgb`), in exact rational arithmetic. -/
def colorsys_hsv_to_rgb (h s v : ℚ) : ℚ × ℚ × ℚ :=
  if s = 0 then (v, v, v)
  else
    let i0 : ℤ := pyInt (h * 6)
    let f : ℚ := h * 6 - i0
    let p : ℚ := v * (1 - s)
    let q : ℚ := v * (1 - s * f)
    let t : ℚ := v * (1 - s * (1 - f))
    let i : ℕ := pyMod i0 6
    if i = 0 then (v, t, p)
    else if i = 1 then (q, v, p)
    else if i = 2 then (p, v, t)
    else if i = 3 then (p, q, v)
    else if i = 4 then (t, p, v)
    else (v, p, q)

/-- `ColorGenerator.hsv_to_rgb`: clamp all inputs to `[0,1]`, convert, and
truncate each channel of `c * 255` to an integer. -/
def hsv_to_rgb (hue saturation value : ℚ) : RGB :=
  let hue := clamp01 hue
  let saturation := clamp01 saturation
  let value := clamp01 value
  let c := colorsys_hsv_to_rgb hue saturation value
  (pyInt (c.1 * 255), pyInt (c.2.1 * 255), pyInt (c.2.2 * 255))

/-- `ColorGenerator.generate_rainbow_color`: normalize the position with
`% 1.0` and convert through HSV. -/
def generate_rainbow_color (position saturation value : ℚ) : RGB :=
  hsv_to_rgb (pyMod1 position) saturation value

/-- `ColorGenerator.interpolate_colors`: per-channel linear interpolation
with the factor clamped to `[0,1]` and `int()` truncation. -/
def interpolate_colors (color1 color2 : RGB) (factor : ℚ) : RGB :=
  let factor := clamp01 factor
  (pyInt ((color1.1 : ℚ) + ((color2.1 : ℚ) - (color1.1 : ℚ)) * factor),
   pyInt ((color1.2.1 : ℚ) + ((color2.2.1 : ℚ) - (color1.2.1 : ℚ)) * factor),
   pyInt ((color1.2.2 : ℚ) + ((color2.2.2 : ℚ) - (color1.2.2 : ℚ)) * factor))

/-- `ColorGenerator.generate_gradient_colors`. -/
def generate_gradient_colors (start_color end_color : RGB) (steps : ℕ) : List RGB :=
  if steps < 2 then [start_color, end_color]
  else (List.range steps).map fun (i : ℕ) =>
    interpolate_colors start_color end_color ((i : ℚ) / ((steps : ℚ) - 1))

/-- `ColorGenerator.generate_rainbow_sequence`: slot `i` of `length` gets
the rainbow color at position `(i/length + offset) % 1.0`. -/
def generate_rainbow_sequence (length : ℕ) (saturation value offset : ℚ) : List RGB :=
  if length = 0 then []
  else (List.range length).map fun (i : ℕ) =>
    generate_rainbow_color (pyMod1 ((i : ℚ) / (length : ℚ) + offset)) saturation value

/-- The fixed dark→light anchor table of
`ColorGenerator.generate_monochromatic_gradient`. -/
def color_gradients : List (String × List RGB) :=
  [("red", [(150, 20, 20), (200, 30, 30), (255, 0, 0), (255, 50, 50), (255, 80, 80)]),
   ("blue", [(30, 30, 150), (0, 50, 200), (0, 0, 255), (50, 100, 255), (100, 150, 255)]),
   ("green", [(0, 80, 0), (0, 255, 0), (128, 255, 128)]),
   ("yellow", [(128, 128, 0), (255, 255, 0), (255, 255, 128)]),
   ("purple", [(80, 0, 80), (128, 0, 128), (200, 128, 200)]),
   ("cyan", [(0, 80, 80), (0, 255, 255), (128, 255, 255)]),
   ("gray", [(64, 64, 64), (128, 128, 128), (192, 192, 192)]),
   ("pink", [(180, 100, 140), (220, 130, 170), (255, 160, 190), (255, 192, 203), (255, 200, 210)]),
   ("orange", [(180, 60, 0), (215, 110, 0), (255, 140, 0), (255, 180, 40), (255, 195, 80)])]

/-- The extended-gradient construction inside
`generate_monochromatic_gradient`: interpolate each adjacent anchor pair in
`steps` samples, dropping the head of every segment after the first. -/
def build_extended_gradient (gradient_colors : List RGB) (steps : ℕ) : List RGB :=
  (List.range (gradient_colors.length - 1)).foldl
    (fun acc i =>
      let segment := generate_gradient_colors (gradient_colors.getD i (0, 0, 0))
        (gradient_colors.getD (i + 1) (0, 0, 0)) steps
      acc ++ (if 0 < i then segment.tail else segment))
    []

/-- `ColorGenerator.generate_monochromatic_gradient`: sample `length`
colors from the extended gradient by the truncated-index formula; unknown
names fall back to the rainbow generator (with its default
saturation/value of 1.0). -/
def generate_monochromatic_gradient (color_name : String) (length : ℕ) (offset : ℚ) :
    List RGB :=
  if length = 0 then []
  else
    match dictGet color_gradients color_name with
    | none => generate_rainbow_sequence length 1 1 offset
    | some gradient_colors =>
      let steps_per_segment := max 10 (length / 2)
      let extended_gradient := build_extended_gradient gradient_colors steps_per_segment
      (List.range length).map fun (i : ℕ) =>
        let position := ((i : ℚ) / (length : ℚ) + offset) * (extended_gradient.length : ℚ)
        let gradient_index := pyMod (pyInt position) extended_gradient.length
        extended_gradient.getD gradient_index (0, 0, 0)

/-! Basic facts about the helpers. -/

theorem pyMod1_nonneg (x : ℚ) : 0 ≤ pyMod1 x := by
  simp only [pyMod1, sub_nonneg]
  exact Int.floor_le x

theorem pyMod1_lt_one (x : ℚ) : pyMod1 x < 1 := by
  have h := Int.lt_floor_add_one x
  simp only [pyMod1]
  push_cast at h
  linarith

theorem pyMod1_add_one (x : ℚ) : pyMod1 (x + 1) = pyMod1 x := by
  simp only [pyMod1]
  rw [show (1 : ℚ) = ((1 : ℤ) : ℚ) by norm_num, Int.floor_add_int]
  push_cast
  ring

theorem generate_rainbow_sequence_length (n : ℕ) (s v o : ℚ) :
    (generate_rainbow_sequence n s v o).length = n := by
  unfold generate_rainbow_sequence
  by_cases h : n = 0
  · rw [if_pos h, h]
    rfl
  · rw [if_neg h, List.length_map, List.length_range]

theorem generate_rainbow_sequence_getD (n : ℕ) (s v o : ℚ) (i : ℕ) (hi : i < n) :
    (generate_rainbow_sequence n s v o).getD i (0, 0, 0) =
      generate_rainbow_color (pyMod1 ((i : ℚ) / (n : ℚ) + o)) s v := by
  have hn : n ≠ 0 := by omega
  unfold generate_rainbow_sequence
  rw [if_neg hn, List.getD_eq_getElem?_getD, List.getElem?_map, List.getElem?_range hi]
  rfl

/-- C8: `generate_rainbow_sequence(n, sat, val, offset)` returns exactly
`n` RGB triples for `n > 0` and `sat, val ∈ [0,1]`, and element `i` agrees
with element `i` of the sequence generated at `offset + 1.0`
(periodicity of period 1.0 in the offset). -/
theorem rainbow_sequence_length_and_periodicity
    (n : ℕ) (sat val offset : ℚ) (hn : 0 < n)
    (hs₀ : 0 ≤ sat) (hs₁ : sat ≤ 1) (hv₀ : 0 ≤ val) (hv₁ : val ≤ 1) :
    (generate_rainbow_sequence n sat val offset).length = n ∧
      ∀ i, i < n →
        (generate_rainbow_sequence n sat val offset).getD i (0, 0, 0) =
          (generate_rainbow_sequence n sat val (offset + 1)).getD i (0, 0, 0) := by
  refine ⟨generate_rainbow_sequence_length n sat val offset, fun i hi => ?_⟩
  rw [generate_rainbow_sequence_getD n sat val offset i hi,
    generate_rainbow_sequence_getD n sat val (offset + 1) i hi]
  rw [show (i : ℚ) / (n : ℚ) + (offset + 1) = ((i : ℚ) / (n : ℚ) + offset) + 1 by ring,
    pyMod1_add_one]

/-- Witness for C8 at `n = 3`, `sat = val = 1`, `offset = 0`. -/
theorem rainbow_sequence_length_and_periodicity_witness :
    (generate_rainbow_sequence 3 1 1 0).length = 3 ∧
      ∀ i, i < 3 →
        (generate_rainbow_sequence 3 1 1 0).getD i (0, 0, 0) =
          (generate_rainbow_sequence 3 1 1 (0 + 1)).getD i (0, 0, 0) :=
  rainbow_sequence_length_and_periodicity 3 1 1 0 (by decide)
    (by norm_num) (by norm_num) (by norm_num) (by norm_num)

/-! ## Curses color adapter (`terminal_flow/colors/curses_adapter.py`) -/

/-- A curses display attribute.  `curses.color_pair(n)` composed with the
bold/dim flags is an opaque platform value; the embedding keeps its
information content: the pair number plus the two flags.  Raw numeric
attributes (the literal `1` fallback of `get_color_from_palette`,
`curses.A_BOLD`, `0`) are kept as `raw`. -/
inductive CursesAttr : Type
  | raw (n : ℤ)
  | pairAttr (pair : ℤ) (bold : Bool) (dim : Bool)
  deriving DecidableEq, Repr

/-- ncurses `A_BOLD` (platform constant). -/
def A_BOLD : ℤ := 2097152

/-- The `standard_colors` list assigned (misplaced) inside
`CursesColorAdapter._evict_oldest_rgb_cache`: Red, Yellow, Green, Cyan,
Blue, Magenta, White, Gray. -/
def standard_colors_table : List RGB :=
  [(255, 0, 0), (255, 255, 0), (0, 255, 0), (0, 255, 255),
   (0, 0, 255), (255, 0, 255), (255, 255, 255), (128, 128, 128)]

/-- The `curses_colors` list assigned (misplaced) inside
`_evict_oldest_rgb_cache` (ncurses color numbers; White repeated as the
gray fallback). -/
def curses_colors_table : List ℤ := [1, 3, 2, 6, 4, 5, 7, 7]

/-- State of a `CursesColorAdapter` instance.  `standard_colors` and
`curses_colors` are `Option`s because `__init__` does not assign them:
their assignments sit inside `_evict_oldest_rgb_cache` in the source, so
the attributes do not exist (`AttributeError` on access) until that method
has run past its early return. -/
structure CursesColorAdapter : Type where
  color_pairs_initialized : Bool
  has_colors : Bool
  supports_256_colors : Bool
  rgb_to_pair_cache : List (RGB × ℤ)
  rgb_cache_access_times : List (RGB × ℚ)
  max_rgb_cache_size : ℕ
  max_pairs : ℕ
  standard_colors : Option (List RGB)
  curses_colors : Option (List ℤ)
  deriving DecidableEq, Repr

/-- `CursesColorAdapter.__init__(max_rgb_cache_size)`. -/
def adapter_init (max_rgb_cache_size : ℕ) : CursesColorAdapter where
  color_pairs_initialized := false
  has_colors := false
  supports_256_colors := false
  rgb_to_pair_cache := []
  rgb_cache_access_times := []
  max_rgb_cache_size := max_rgb_cache_size
  max_pairs := 8
  standard_colors := none
  curses_colors := none

/-- `CursesColorAdapter._evict_oldest_rgb_cache`: early return on an empty
access-time dict, otherwise delete the least-recently-used entry from both
dicts and then (the misplaced block) assign the two color tables. -/
def evict_oldest_rgb_cache (a : CursesColorAdapter) : CursesColorAdapter :=
  if a.rgb_cache_access_times.isEmpty then a
  else
    match dictMinKey a.rgb_cache_access_times with
    | none => a
    | some oldest_rgb =>
      { a with
        rgb_to_pair_cache := dictDel a.rgb_to_pair_cache oldest_rgb
        rgb_cache_access_times := dictDel a.rgb_cache_access_times oldest_rgb
        standard_colors := some standard_colors_table
        curses_colors := some curses_colors_table }

/-- Squared Euclidean RGB distance.  `CursesColorAdapter.rgb_distance`
returns the square root; the search in `rgb_to_color_pair` only compares
distances with `<`, and the square root is strictly monotone, so the
rational embedding compares the squares (a square root of a rational is
not rational in general). -/
def rgb_distance_sq (rgb1 rgb2 : RGB) : ℚ :=
  (((rgb1.1 - rgb2.1) ^ 2 + (rgb1.2.1 - rgb2.2.1) ^ 2 + (rgb1.2.2 - rgb2.2.2) ^ 2 : ℤ) : ℚ)

/-- The linear search of the narrow (8-color) branch of
`rgb_to_color_pair`: `min_distance = inf; closest_index = 0`, scan the
table in order, strict `<` update (so ties keep the first match). -/
def closest_standard_index (table : List RGB) (rgb : RGB) : ℕ :=
  (table.foldl
    (fun (st : Option ℚ × ℕ × ℕ) standard_color =>
      let d := rgb_distance_sq rgb standard_color
      match st.1 with
      | none => (some d, st.2.2, st.2.2 + 1)
      | some m => if d < m then (some d, st.2.2, st.2.2 + 1) else (st.1, st.2.1, st.2.2 + 1))
    (none, 0, 0)).2.1

/-- `CursesColorAdapter.rgb_to_color_pair`, as a state transformer.
`now` is the `time.time()` reading of this call.  The narrow branch reads
`self.standard_colors`, which raises `AttributeError` while unassigned. -/
def rgb_to_color_pair (a : CursesColorAdapter) (rgb : RGB) (now : ℚ) :
    Except PyErr (ℤ × CursesColorAdapter) :=
  match dictGet a.rgb_to_pair_cache rgb with
  | some cached =>
    Except.ok (cached,
      { a with rgb_cache_access_times := dictSet a.rgb_cache_access_times rgb now })
  | none =>
    if a.has_colors = false then Except.ok (0, a)
    else
      let pair : Except PyErr ℤ :=
        if a.supports_256_colors then
          let r6 : ℤ := min 5 (Int.fdiv (rgb.1 * 6) 256)
          let g6 : ℤ := min 5 (Int.fdiv (rgb.2.1 * 6) 256)
          let b6 : ℤ := min 5 (Int.fdiv (rgb.2.2 * 6) 256)
          let color_256 : ℤ := 16 + 36 * r6 + 6 * g6 + b6
          Except.ok (min color_256 ((a.max_pairs : ℤ) - 1))
        else
          match a.standard_colors with
          | none => Except.error (PyErr.attributeError "standard_colors")
          | some table => Except.ok ((closest_standard_index table rgb : ℤ) + 1)
      match pair with
      | Except.error e => Except.error e
      | Except.ok color_pair =>
        let a :=
          if a.max_rgb_cache_size ≤ a.rgb_to_pair_cache.length then
            evict_oldest_rgb_cache a
          else a
        Except.ok (color_pair,
          { a with
            rgb_to_pair_cache := dictSet a.rgb_to_pair_cache rgb color_pair
            rgb_cache_access_times := dictSet a.rgb_cache_access_times rgb now })

/-- `CursesColorAdapter.get_color_attr`. -/
def get_color_attr (a : CursesColorAdapter) (rgb : RGB) (bold : Bool) (now : ℚ) :
    Except PyErr (CursesAttr × CursesColorAdapter) :=
  if a.has_colors = false then
    Except.ok (CursesAttr.raw (if bold then A_BOLD else 0), a)
  else
    match rgb_to_color_pair a rgb now with
    | Except.error e => Except.error e
    | Except.ok (color_pair, a') => Except.ok (CursesAttr.pairAttr color_pair bold false, a')

/-! ## Sequence cache (`CursesRainbowSequence`) -/

/-- Python bankers' rounding (`round half to even`), used by `%.3f`
formatting. -/
def roundHalfEven (q : ℚ) : ℤ :=
  let f := ⌊q⌋
  let r := q - f
  if r < 1 / 2 then f
  else if 1 / 2 < r then f + 1
  else if f % 2 = 0 then f else f + 1

/-- The components of the f-string cache key
`f"{length}_{offset:.3f}_{bold}_{color_scheme or 'rainbow'}"`.  The
f-string is injective on these components (none of the rendered parts can
contain `_`), so the key is kept structured; `offset3` is the offset
formatted to three decimals, i.e. `offset * 1000` rounded half-to-even. -/
structure SeqKey : Type where
  length : ℕ
  offset3 : ℤ
  bold : Bool
  scheme : String
  deriving DecidableEq, Repr

/-- State of a `CursesRainbowSequence` instance: the adapter it wraps and
its `cached_sequences` dict. -/
structure CursesRainbowSequence : Type where
  adapter : CursesColorAdapter
  cached_sequences : List (SeqKey × List CursesAttr)
  deriving DecidableEq, Repr

/-- The attribute-conversion loop of `generate_sequence`: one
`get_color_attr` call per RGB, threading the adapter state; `times k` is
the `time.time()` reading of the `k`-th call (the clock is an external
input). -/
def attrs_of_rgb_list (a : CursesColorAdapter) (bold : Bool) (times : ℕ → ℚ) (tick : ℕ) :
    List RGB → Except PyErr (List CursesAttr × CursesColorAdapter)
  | [] => Except.ok ([], a)
  | rgb :: rest =>
    match get_color_attr a rgb bold (times tick) with
    | Except.error e => Except.error e
    | Except.ok (attr, a') =>
      match attrs_of_rgb_list a' bold times (tick + 1) rest with
      | Except.error e => Except.error e
      | Except.ok (attrs, a'') => Except.ok (attr :: attrs, a'')

/-- `CursesRainbowSequence.generate_sequence`: look up the cache key,
otherwise generate the RGB sequence (monochromatic for a scheme name,
rainbow with saturation 0.75 / value 0.9 for `None`), convert it to
attributes, and store the result only while the cache holds fewer than
100 entries. -/
def generate_sequence (s : CursesRainbowSequence) (length : ℕ) (offset : ℚ)
    (bold : Bool) (color_scheme : Option String) (times : ℕ → ℚ) :
    Except PyErr (List CursesAttr × CursesRainbowSequence) :=
  let cache_key : SeqKey :=
    ⟨length, roundHalfEven (offset * 1000), bold, color_scheme.getD "rainbow"⟩
  match dictGet s.cached_sequences cache_key with
  | some cached => Except.ok (cached, s)
  | none =>
    let rgb_sequence :=
      match color_scheme with
      | some name => generate_monochromatic_gradient name length offset
      | none => generate_rainbow_sequence length 0.75 0.9 offset
    match attrs_of_rgb_list s.adapter bold times 0 rgb_sequence with
    | Except.error e => Except.error e
    | Except.ok (attr_sequence, a') =>
      let cached' :=
        if s.cached_sequences.length < 100 then
          dictSet s.cached_sequences cache_key attr_sequence
        else s.cached_sequences
      Except.ok (attr_sequence, ⟨a', cached'⟩)

/-! ## Frame cache (`terminal_flow/colors/animator.py`, `ColorFrameCache`) -/

/-- State of a `ColorFrameCache` instance (`_cache` and `_access_times`
dicts plus the configured capacity). -/
structure ColorFrameCache : Type where
  max_cache_size : ℕ
  cache : List (String × List (List RGB))
  access_times : List (String × ℚ)
  deriving DecidableEq, Repr

/-- `ColorFrameCache._evict_oldest`. -/
def frame_evict_oldest (c : ColorFrameCache) : ColorFrameCache :=
  if c.access_times.isEmpty then c
  else
    match dictMinKey c.access_times with
    | none => c
    | some oldest_key =>
      { c with
        cache := dictDel c.cache oldest_key
        access_times := dictDel c.access_times oldest_key }

/-- `ColorFrameCache.store_frames`: evict the LRU entry if the cache is
full, then insert. -/
def store_frames (c : ColorFrameCache) (cache_key : String)
    (frames : List (List RGB)) (now : ℚ) : ColorFrameCache :=
  let c := if c.max_cache_size ≤ c.cache.length then frame_evict_oldest c else c
  { c with
    cache := dictSet c.cache cache_key frames
    access_times := dictSet c.access_times cache_key now }

/-- `ColorFrameCache.get_frames`. -/
def get_frames (c : ColorFrameCache) (cache_key : String) (now : ℚ) :
    Option (List (List RGB)) × ColorFrameCache :=
  match dictGet c.cache cache_key with
  | some frames =>
    (some frames, { c with access_times := dictSet c.access_times cache_key now })
  | none => (none, c)

/-! ## Animation base (`terminal_flow/animation_base.py`) -/

/-- The content-bounds fields computed by
`BaseAnimationMode.calculate_content_bounds` (kept flat on `self` in the
source). -/
structure ContentBounds : Type where
  content_start : ℕ
  content_end : ℕ
  content_width : ℕ
  content_height : ℕ
  start_row : ℤ
  start_col : ℤ
  deriving DecidableEq, Repr

/-- Python `line.strip()` is truthy: the line has a non-whitespace
character. -/
def line_has_content (s : String) : Bool := s.toList.any fun c => !c.isWhitespace

/-- `BaseAnimationMode.calculate_content_bounds`: first/last line with
content (falling back to `0` / `len-1` when no line has content), maximum
width over that range, and the centering offsets (Python `//` is floor
division; `start_row` can be negative). -/
def calculate_content_bounds (lines : List String) (max_rows max_cols : ℕ) :
    ContentBounds :=
  if lines.isEmpty then
    { content_start := 0, content_end := 0, content_width := 0, content_height := 0,
      start_row := 0, start_col := 0 }
  else
    let start_line := (lines.findIdx? line_has_content).getD 0
    let end_line :=
      match lines.reverse.findIdx? line_has_content with
      | some j => lines.length - 1 - j
      | none => lines.length - 1
    let max_width :=
      ((lines.drop start_line).take (end_line + 1 - start_line)).foldl
        (fun m l => max m l.length) 0
    let content_height := end_line - start_line + 1
    { content_start := start_line, content_end := end_line, content_width := max_width,
      content_height := content_height,
      start_row := max 0 (Int.fdiv ((max_rows : ℤ) - (content_height : ℤ)) 2) -
        (start_line : ℤ),
      start_col := max 0 (Int.fdiv ((max_cols : ℤ) - (max_width : ℤ)) 2) }

/-- `self.palette_size` (the "high resolution color palette"). -/
def palette_size : ℕ := 360

/-- The palette index computed by `get_color_from_palette`:
`int(position * (len(palette) - 1)) % len(palette)`. -/
def palette_index (palette_len : ℕ) (position : ℚ) : ℕ :=
  pyMod (pyInt (position * ((palette_len : ℚ) - 1))) palette_len

/-- `BaseAnimationMode.get_color_from_palette`. -/
def get_color_from_palette (color_palette : List CursesAttr) (position : ℚ) :
    CursesAttr :=
  if color_palette.isEmpty then CursesAttr.raw 1
  else color_palette.getD (palette_index color_palette.length position) (CursesAttr.raw 1)

/-- `self.modes` of `BaseAnimationMode.__init__`. -/
def modes_list : List String := ["wave", "spin", "pulse", "flux", "morph"]

/-- `self.color_schemes` of `BaseAnimationMode.__init__` (Python `None`
is the rainbow scheme). -/
def color_schemes_list : List (Option String) :=
  [none, some "red", some "blue", some "green", some "yellow", some "purple",
   some "cyan", some "gray", some "pink", some "orange"]

/-- The mutable state of a `BaseAnimationMode` that `handle_input`
touches.  `text_files` entries are modelled by their loaded contents (the
text-source collaborator is external). -/
structure AnimState : Type where
  current_file_index : ℕ
  last_file_change : ℚ
  current_color_scheme : Option String
  current_color_index : ℕ
  current_mode_index : ℕ
  lines : List String
  bounds : ContentBounds
  color_palette : List CursesAttr
  seq : CursesRainbowSequence

/-- `BaseAnimationMode.load_file`: split the loaded content on newlines
and recompute the content bounds. -/
def load_file (s : AnimState) (text_files : List String) (max_rows max_cols : ℕ) :
    AnimState :=
  let lines := (text_files.getD s.current_file_index "").splitOn "\n"
  { s with lines := lines, bounds := calculate_content_bounds lines max_rows max_cols }

/-- `BaseAnimationMode._generate_color_palette`: one
`generate_sequence(palette_size, offset=0.0, bold=True, scheme)` call. -/
def generate_color_palette (s : AnimState) (times : ℕ → ℚ) : Except PyErr AnimState :=
  match generate_sequence s.seq palette_size 0 true s.current_color_scheme times with
  | Except.error e => Except.error e
  | Except.ok (color_attrs, seq') =>
    Except.ok { s with color_palette := color_attrs, seq := seq' }

/-- The value `handle_input` returns: `{}` (exit), a mode-switch dict, or
`None`. -/
inductive InputResult : Type
  | exitRequested
  | modeSwitch (next_mode : String) (current_file_index : ℕ)
      (current_color_scheme : Option String)
  | noResult
  deriving DecidableEq, Repr

/-- ncurses `KEY_RESIZE`. -/
def KEY_RESIZE : ℤ := 410

/-- ncurses `KEY_RIGHT`. -/
def KEY_RIGHT : ℤ := 261

/-- ncurses `KEY_LEFT`. -/
def KEY_LEFT : ℤ := 260

/-- `BaseAnimationMode.handle_input` with the base-class optional hooks
(`on_resize`/`on_file_change` are no-ops for the wave mode;
`on_color_change` regenerates the palette).  `key` is the `getch()`
result (`-1` when no input is pending), `now` the `time.time()` reading,
`times` the clock readings of the palette regeneration. -/
def handle_input (s : AnimState) (text_files : List String) (key : ℤ)
    (max_rows max_cols : ℕ) (now : ℚ) (times : ℕ → ℚ) :
    Except PyErr (InputResult × AnimState) :=
  if key = KEY_RESIZE then
    Except.ok (InputResult.noResult,
      { s with bounds := calculate_content_bounds s.lines max_rows max_cols })
  else if key = 113 ∨ key = 81 ∨ key = 27 then
    Except.ok (InputResult.exitRequested, s)
  else if key = KEY_RIGHT then
    if text_files.length = 0 then Except.error PyErr.zeroDivisionError
    else
      let s := { s with
        current_file_index := (s.current_file_index + 1) % text_files.length }
      let s := load_file s text_files max_rows max_cols
      Except.ok (InputResult.noResult, { s with last_file_change := now })
  else if key = KEY_LEFT then
    if text_files.length = 0 then Except.error PyErr.zeroDivisionError
    else
      let s := { s with
        current_file_index := pyMod ((s.current_file_index : ℤ) - 1) text_files.length }
      let s := load_file s text_files max_rows max_cols
      Except.ok (InputResult.noResult, { s with last_file_change := now })
  else if key = 99 ∨ key = 67 then
    let s := { s with
      current_color_index := (s.current_color_index + 1) % color_schemes_list.length }
    let s := { s with
      current_color_scheme := color_schemes_list.getD s.current_color_index none }
    match generate_color_palette s times with
    | Except.error e => Except.error e
    | Except.ok s' => Except.ok (InputResult.noResult, s')
  else if key = 109 ∨ key = 77 then
    let s := { s with
      current_mode_index := (s.current_mode_index + 1) % modes_list.length }
    Except.ok (InputResult.modeSwitch (modes_list.getD s.current_mode_index "")
      s.current_file_index s.current_color_scheme, s)
  else Except.ok (InputResult.noResult, s)

/-! ## Per-mode animation-state updates (`terminal_flow/modes/*.py`) -/

/-- The double-precision value of `math.pi`, written with its shortest
decimal representation (the embedding maps float literals to their
decimal value). -/
def mathPi : ℚ := 3.141592653589793

/-- `WaveMode.update_animation_state`: advance by
`speed * interval * 0.5`, wrap by a single subtraction at `1.0`. -/
def wave_update_animation_state (animation_offset animation_speed update_interval : ℚ) :
    ℚ :=
  let o := animation_offset + animation_speed * update_interval * 0.5
  if 1 ≤ o then o - 1 else o

/-- `SpinMode.update_animation_state`: advance by
`speed * interval * math.pi`, wrap by a single subtraction at `2π`. -/
def spin_update_animation_state (rotation_angle animation_speed update_interval : ℚ) :
    ℚ :=
  let a := rotation_angle + animation_speed * update_interval * mathPi
  if 2 * mathPi ≤ a then a - 2 * mathPi else a

/-- `PulseMode.update_animation_state`: advance by
`speed * interval * 2.0`, wrap at `1.0`. -/
def pulse_update_animation_state (pulse_offset animation_speed update_interval : ℚ) :
    ℚ :=
  let o := pulse_offset + animation_speed * update_interval * 2
  if 1 ≤ o then o - 1 else o

/-- `FluxMode.update_animation_state`: advance by
`speed * interval * 0.7`, wrap at `1.0`. -/
def flux_update_animation_state (flux_offset animation_speed update_interval : ℚ) : ℚ :=
  let o := flux_offset + animation_speed * update_interval * 0.7
  if 1 ≤ o then o - 1 else o

/-! ## Draw passes

All five `draw_frame` implementations share one skeleton: iterate lines
(breaking when `line_idx + start_row >= max_rows`), skip whitespace
characters, skip characters past the terminal bounds, compute an
attribute, and `addstr` guarded by try/except (which drops writes at a
negative row).  A draw pass is modelled as the list of cells written. -/

/-- One terminal write performed by a draw pass. -/
structure DrawnCell : Type where
  row : ℤ
  col : ℤ
  char : Char
  attr : CursesAttr
  deriving DecidableEq, Repr

/-- The per-line character loop shared by every mode's `draw_frame`. -/
def draw_line_chars (attr_of : ℕ → ℕ → String → CursesAttr) (bounds : ContentBounds)
    (max_rows max_cols : ℕ) (line_idx : ℕ) (line : String) : List DrawnCell :=
  line.toList.enum.filterMap fun p =>
    let char_idx := p.1
    let char := p.2
    if char.isWhitespace then none
    else
      let col := bounds.start_col + (char_idx : ℤ)
      let row := bounds.start_row + (line_idx : ℤ)
      if (max_cols : ℤ) ≤ col ∨ (max_rows : ℤ) ≤ row then none
      else if 0 ≤ row then
        some ⟨row, col, char, attr_of line_idx char_idx line⟩
      else none

/-- The line loop shared by every mode's `draw_frame` (the `break` when a
line would start below the terminal stops the whole pass). -/
def draw_frame_chars (attr_of : ℕ → ℕ → String → CursesAttr) (bounds : ContentBounds)
    (max_rows max_cols : ℕ) : ℕ → List String → List DrawnCell
  | _, [] => []
  | line_idx, line :: rest =>
    if (max_rows : ℤ) ≤ (line_idx : ℤ) + bounds.start_row then []
    else
      draw_line_chars attr_of bounds max_rows max_cols line_idx line ++
        draw_frame_chars attr_of bounds max_rows max_cols (line_idx + 1) rest

/-- The per-character position→attribute computation of
`WaveMode.draw_frame`:
`(char_idx / len(line) + animation_offset + line_idx * 0.1) % 1.0`. -/
def wave_char_attr (color_palette : List CursesAttr) (animation_offset : ℚ)
    (line_idx char_idx : ℕ) (line : String) : CursesAttr :=
  let position :=
    pyMod1 ((char_idx : ℚ) / (line.length : ℚ) + animation_offset + (line_idx : ℚ) * 0.1)
  get_color_from_palette color_palette position

/-- `WaveMode.draw_frame`. -/
def draw_frame_wave (lines : List String) (bounds : ContentBounds)
    (animation_offset : ℚ) (color_palette : List CursesAttr) (max_rows max_cols : ℕ) :
    List DrawnCell :=
  draw_frame_chars (wave_char_attr color_palette animation_offset) bounds
    max_rows max_cols 0 lines

/-- The per-character computation of `SpinMode.draw_frame`; `atan2f`
models `math.atan2` (a transcendental platform routine). -/
def spin_char_attr (atan2f : ℤ → ℤ → ℚ) (color_palette : List CursesAttr)
    (rotation_angle : ℚ) (center_row center_col : ℤ) (bounds : ContentBounds)
    (line_idx char_idx : ℕ) (_line : String) : CursesAttr :=
  let row := bounds.start_row + (line_idx : ℤ)
  let col := bounds.start_col + (char_idx : ℤ)
  let angle := atan2f (row - center_row) (col - center_col)
  let color_position := pyMod1 ((angle + rotation_angle) / (2 * mathPi))
  get_color_from_palette color_palette color_position

/-- `SpinMode.draw_frame`. -/
def draw_frame_spin (atan2f : ℤ → ℤ → ℚ) (lines : List String) (bounds : ContentBounds)
    (rotation_angle : ℚ) (center_row center_col : ℤ) (color_palette : List CursesAttr)
    (max_rows max_cols : ℕ) : List DrawnCell :=
  draw_frame_chars (spin_char_attr atan2f color_palette rotation_angle center_row
    center_col bounds) bounds max_rows max_cols 0 lines

/-- The per-character computation of `PulseMode.draw_frame`; `sqrtf`
models `math.sqrt`. -/
def pulse_char_attr (sqrtf : ℚ → ℚ) (color_palette : List CursesAttr)
    (pulse_offset : ℚ) (center_row center_col : ℤ) (bounds : ContentBounds)
    (line_idx char_idx : ℕ) (_line : String) : CursesAttr :=
  let row := bounds.start_row + (line_idx : ℤ)
  let col := bounds.start_col + (char_idx : ℤ)
  let dy := row - center_row
  let dx := col - center_col
  let distance := sqrtf ((dx * dx + dy * dy : ℤ) : ℚ)
  let max_distance := sqrtf (((bounds.content_width * bounds.content_width +
    bounds.content_height * bounds.content_height : ℕ) : ℚ)) / 2
  let normalized_distance := if 0 < max_distance then distance / max_distance else 0
  let color_position := pyMod1 (normalized_distance - pulse_offset)
  get_color_from_palette color_palette color_position

/-- `PulseMode.draw_frame`. -/
def draw_frame_pulse (sqrtf : ℚ → ℚ) (lines : List String) (bounds : ContentBounds)
    (pulse_offset : ℚ) (center_row center_col : ℤ) (color_palette : List CursesAttr)
    (max_rows max_cols : ℕ) : List DrawnCell :=
  draw_frame_chars (pulse_char_attr sqrtf color_palette pulse_offset center_row
    center_col bounds) bounds max_rows max_cols 0 lines

/-- ncurses `A_DIM` (platform constant). -/
def A_DIM : ℤ := 1048576

/-- Bitwise-or of an attribute with `curses.A_DIM`
(`FluxMode.draw_frame`). -/
def attr_or_dim : CursesAttr → CursesAttr
  | CursesAttr.raw n => CursesAttr.raw (Int.lor n A_DIM)
  | CursesAttr.pairAttr p b _ => CursesAttr.pairAttr p b true

/-- `FluxMode.draw_frame`: one uniform (dimmed) attribute for every
character. -/
def draw_frame_flux (lines : List String) (bounds : ContentBounds) (flux_offset : ℚ)
    (color_palette : List CursesAttr) (max_rows max_cols : ℕ) : List DrawnCell :=
  let uniform_attr := attr_or_dim (get_color_from_palette color_palette flux_offset)
  draw_frame_chars (fun _ _ _ => uniform_attr) bounds max_rows max_cols 0 lines

/-! ## Wave field simulator (`terminal_flow/modes/morph.py`)

`math.sin` / `math.sqrt` are transcendental platform routines, so the
field is generic over the scalar type `α` with the routines as
parameters; theorems about actual heights instantiate `α := ℝ`,
`sinf := Real.sin`, `sqrtf := Real.sqrt`. -/

/-- `List.map` with the element index, used to model in-place writes of
the nested grid loops. -/
def mapIdxFrom {α β : Type} (f : ℕ → α → β) : ℕ → List α → List β
  | _, [] => []
  | i, x :: xs => f i x :: mapIdxFrom f (i + 1) xs

/-- State of a `WaveField` instance. -/
structure WaveFieldState (α : Type) : Type where
  rows : ℕ
  cols : ℕ
  max_tier : ℕ
  median_height : ℕ
  heights : List (List α)
  center_row : ℕ
  center_col : ℕ
  distance_grid : List (List α)

/-- `WaveField.__init__(rows, cols, max_tier)`: median `max_tier // 2`,
heights all at the median, precomputed center-distance grid. -/
def wave_field_init {α : Type} [LinearOrderedField α] (sqrtf : α → α)
    (rows cols max_tier : ℕ) : WaveFieldState α where
  rows := rows
  cols := cols
  max_tier := max_tier
  median_height := max_tier / 2
  heights := List.replicate rows (List.replicate cols ((max_tier / 2 : ℕ) : α))
  center_row := rows / 2
  center_col := cols / 2
  distance_grid :=
    (List.range rows).map fun (r : ℕ) =>
      (List.range cols).map fun (c : ℕ) =>
        sqrtf ((((r : ℤ) - ((rows / 2 : ℕ) : ℤ)) ^ 2 +
          ((c : ℤ) - ((cols / 2 : ℕ) : ℤ)) ^ 2 : ℤ) : α)

/-- `WaveField.get_height` (bounds-checked, median outside). -/
def get_height {α : Type} [LinearOrderedField α] (f : WaveFieldState α)
    (row col : ℕ) : α :=
  if row < f.rows ∧ col < f.cols then (f.heights.getD row []).getD col 0
  else (f.median_height : α)

/-- `WaveField.get_tier`: `int(round(height))` (Python `round` is
half-to-even). -/
def get_tier (f : WaveFieldState ℚ) (row col : ℕ) : ℤ :=
  roundHalfEven (get_height f row col)

/-- `WaveField.propagate_waves(animation_speed, time_offset,
content_bounds)`: recompute every cell in the active region as the median
plus six sine terms, clamped to `[0, max_tier]`; cells outside the region
keep their height.  (`animation_speed` is accepted and unused, as in the
source.) -/
def propagate_waves {α : Type} [LinearOrderedField α] (sinf : α → α)
    (f : WaveFieldState α) (_animation_speed time_offset : α)
    (content_bounds : Option (ℕ × ℕ × List ℕ)) : WaveFieldState α :=
  let in_row_range : ℕ → Bool := fun r =>
    match content_bounds with
    | some (start_row, end_row, _) => decide (start_row ≤ r ∧ r < min (end_row + 1) f.rows)
    | none => decide (r < f.rows)
  let col_limit : ℕ → ℕ := fun r =>
    match content_bounds with
    | some (start_row, _, line_lengths) =>
      if r - start_row < line_lengths.length then
        min (line_lengths.getD (r - start_row) 0) f.cols
      else f.cols
    | none => f.cols
  let new_height : ℕ → ℕ → α := fun r c =>
    let wave1 := sinf ((c : α) * 0.3 + time_offset * 2) * ((f.max_tier : α) * 0.15)
    let wave2 := sinf ((r : α) * 0.25 + time_offset * 1.5) * ((f.max_tier : α) * 0.12)
    let wave3 := sinf (((r : α) + (c : α)) * 0.2 + time_offset * 1.8) *
      ((f.max_tier : α) * 0.1)
    let distance_from_center := (f.distance_grid.getD r []).getD c 0
    let wave4 := sinf (distance_from_center * 0.4 - time_offset * 2.5) *
      ((f.max_tier : α) * 0.08)
    let wave5 := sinf ((r : α) * 0.8 + (c : α) * 0.6 + time_offset * 4) *
      ((f.max_tier : α) * 0.05)
    let detail := sinf ((r : α) * 1.2 + (c : α) * 1.1 + time_offset * 3) *
      ((f.max_tier : α) * 0.03)
    let total_height :=
      ((f.median_height : α) + (wave1 + wave2 + wave3 + wave4 + wave5)) + detail
    max 0 (min (f.max_tier : α) total_height)
  { f with
    heights := mapIdxFrom (fun r row =>
      if in_row_range r then
        mapIdxFrom (fun c h => if c < col_limit r then new_height r c else h) 0 row
      else row) 0 f.heights }

/-- The per-character tier→attribute computation of
`MorphMode.draw_frame` (including the plain-`addstr` fallbacks, which
write the character with the default attribute `0`). -/
def morph_char_attr (wave_field : Option (WaveFieldState ℚ))
    (cached_gradient_attrs : List CursesAttr) (content_width : ℕ)
    (line_idx char_idx : ℕ) (_line : String) : CursesAttr :=
  match wave_field with
  | some f =>
    if char_idx < content_width then
      let tier := get_tier f line_idx char_idx
      if tier < (cached_gradient_attrs.length : ℤ) then
        cached_gradient_attrs.getD tier.toNat (CursesAttr.raw 0)
      else CursesAttr.raw 0
    else CursesAttr.raw 0
  | none => CursesAttr.raw 0

/-- `MorphMode.draw_frame`. -/
def draw_frame_morph (lines : List String) (bounds : ContentBounds)
    (wave_field : Option (WaveFieldState ℚ)) (cached_gradient_attrs : List CursesAttr)
    (max_rows max_cols : ℕ) : List DrawnCell :=
  draw_frame_chars (morph_char_attr wave_field cached_gradient_attrs
    bounds.content_width) bounds max_rows max_cols 0 lines

/-! ## Custom color schemes (`terminal_flow/colors/schemes.py`) -/

/-- A color passed to `CustomColors.__init__`: a tuple (of any arity — it
is accepted only when the arity is 3), a string, or any other Python
value. -/
inductive ColorInput : Type
  | tuple (channels : List ℤ)
  | str (s : String)
  | otherValue
  deriving DecidableEq, Repr

/-- Python `int(s, 16)` on a two-character slice: both characters hex
digits, or a sign/space followed by one hex digit, or one hex digit plus
trailing space (Python's `int` tolerates surrounding whitespace and a
sign); anything else raises. -/
def pyIntHex2 (c1 c2 : Char) : Option ℤ :=
  let d : Char → Option ℤ := fun c =>
    if c.isDigit then some ((c.toNat : ℤ) - 48)
    else if 'a' ≤ c ∧ c ≤ 'f' then some ((c.toNat : ℤ) - 87)
    else if 'A' ≤ c ∧ c ≤ 'F' then some ((c.toNat : ℤ) - 55)
    else none
  match d c1, d c2 with
  | some v1, some v2 => some (16 * v1 + v2)
  | none, some v2 => if c1 = '+' ∨ c1 = ' ' then some v2
      else if c1 = '-' then some (-v2) else none
  | some v1, none => if c2 = ' ' then some v1 else none
  | none, none => none

/-- The hex branch of `_normalize_colors` after the `#` strip: exactly
six characters parsed as three two-character hex groups
(`int(hex_color[0:2], 16)` etc.), anything else raises `ValueError`. -/
def parse_hex_groups : List Char → Except PyErr RGB
  | [h1, h2, h3, h4, h5, h6] =>
    match pyIntHex2 h1 h2, pyIntHex2 h3 h4, pyIntHex2 h5 h6 with
    | some r, some g, some b => Except.ok (r, g, b)
    | _, _, _ => Except.error PyErr.valueError
  | _ => Except.error PyErr.valueError

/-- The per-color normalization of `CustomColors._normalize_colors`:
3-tuples have each channel clamped to `[0,255]`; strings lose a leading
`#` and go through `parse_hex_groups`; everything else raises
`ValueError`. -/
def normalize_color (color : ColorInput) : Except PyErr RGB :=
  match color with
  | ColorInput.tuple channels =>
    match channels with
    | [r, g, b] =>
      Except.ok (max 0 (min 255 r), max 0 (min 255 g), max 0 (min 255 b))
    | _ => Except.error PyErr.valueError
  | ColorInput.str s =>
    parse_hex_groups
      (if s.toList.head? = some '#' then s.toList.tail else s.toList)
  | ColorInput.otherValue => Except.error PyErr.valueError

/-- `CustomColors._normalize_colors` over the input list. -/
def normalize_colors : List ColorInput → Except PyErr (List RGB)
  | [] => Except.ok []
  | color :: rest =>
    match normalize_color color with
    | Except.error e => Except.error e
    | Except.ok rgb =>
      match normalize_colors rest with
      | Except.error e => Except.error e
      | Except.ok rgbs => Except.ok (rgb :: rgbs)

/-- `CustomColors.__init__(colors)`: fewer than 2 colors raises before
any normalization; otherwise the stored palette is the normalized list. -/
def custom_colors_init (colors : List ColorInput) : Except PyErr (List RGB) :=
  if colors.length < 2 then Except.error PyErr.valueError
  else normalize_colors colors

/-! ## Scenario states and derived pure values referenced by the theorems -/

/-- The adapter state `initialize_colors` leaves on a ≥256-color
terminal with 65536 color pairs: 256-color support detected,
`max_pairs = min(256, COLOR_PAIRS) = 256`. -/
def wide_adapter_state : CursesColorAdapter :=
  { adapter_init 500 with
    color_pairs_initialized := true
    has_colors := true
    supports_256_colors := true
    max_pairs := 256 }

/-- `wide_adapter_state` after one `rgb_to_color_pair((10,20,30))` at
time 0 (cube index 16). -/
def wide_adapter_after_query : CursesColorAdapter :=
  { wide_adapter_state with
    rgb_to_pair_cache := [((10, 20, 30), 16)]
    rgb_cache_access_times := [((10, 20, 30), 0)] }

/-- `CursesColorAdapter.initialize_colors`, parameterised by the
terminal's curses capabilities (`curses.has_colors()`, `curses.COLORS`,
`curses.COLOR_PAIRS`, `curses.can_change_color()`); the `init_pair`
registrations themselves are external terminal effects.  The 8-color
branch iterates `self.curses_colors`, which `__init__` never assigns
(the assignment sits inside `_evict_oldest_rgb_cache`), so that branch
raises `AttributeError` on a fresh adapter. -/
def initialize_colors (a : CursesColorAdapter) (term_has_colors : Bool)
    (term_colors term_color_pairs : ℕ) (_can_change_color : Bool) :
    Except PyErr (Bool × CursesColorAdapter) :=
  if a.color_pairs_initialized then Except.ok (a.has_colors, a)
  else if term_has_colors = false then
    Except.ok (false, { a with has_colors := false, color_pairs_initialized := true })
  else
    let supports := decide (256 ≤ term_colors)
    let a := { a with
      supports_256_colors := supports
      max_pairs := if supports then min 256 term_color_pairs else 8 }
    if supports then
      Except.ok (true, { a with has_colors := true, color_pairs_initialized := true })
    else
      match a.curses_colors with
      | none => Except.error (PyErr.attributeError "curses_colors")
      | some _ =>
        Except.ok (true, { a with has_colors := true, color_pairs_initialized := true })

/-- The adapter state the claim's narrow mode describes (8-color
terminal: `has_colors` set, 256-color support off); `standard_colors`
is still unassigned, as after `__init__`. -/
def narrow_adapter_state : CursesColorAdapter :=
  { adapter_init 500 with
    color_pairs_initialized := true
    has_colors := true
    supports_256_colors := false
    max_pairs := 8 }

/-- A sequence cache already holding 100 entries (the bound in
`generate_sequence`), wrapping a fresh 256-color adapter. -/
def full_seq_cache : CursesRainbowSequence where
  adapter := wide_adapter_state
  cached_sequences := (List.range 100).map fun (i : ℕ) => (⟨i, 0, true, "rainbow"⟩, [])

/-- The pure value of the 256-color branch of `rgb_to_color_pair`
(6×6×6 cube index clamped to `max_pairs - 1`); in wide mode the cached
and freshly computed pair numbers all equal this function of the RGB. -/
def wide_pure_pair (max_pairs : ℕ) (rgb : RGB) : ℤ :=
  min (16 + 36 * min 5 (Int.fdiv (rgb.1 * 6) 256) + 6 * min 5 (Int.fdiv (rgb.2.1 * 6) 256)
    + min 5 (Int.fdiv (rgb.2.2 * 6) 256)) ((max_pairs : ℤ) - 1)

/-- The RGB color that slot `i` of a `generate_sequence` RGB sequence
samples: both generators place slot `i` at spectrum position
`i/length + offset` (rainbow via `hsv`, monochromatic via the
truncated index into its extended gradient, unknown names via the
rainbow fallback). -/
def scheme_sample (color_scheme : Option String) (length : ℕ) (offset : ℚ) (i : ℕ) :
    RGB :=
  match color_scheme with
  | none => generate_rainbow_color (pyMod1 ((i : ℚ) / (length : ℚ) + offset)) 0.75 0.9
  | some name =>
    match dictGet color_gradients name with
    | none => generate_rainbow_color (pyMod1 ((i : ℚ) / (length : ℚ) + offset)) 1 1
    | some gradient_colors =>
      let extended_gradient :=
        build_extended_gradient gradient_colors (max 10 (length / 2))
      extended_gradient.getD
        (pyMod (pyInt (((i : ℚ) / (length : ℚ) + offset) * (extended_gradient.length : ℚ)))
          extended_gradient.length) (0, 0, 0)

/-- In wide (256-color) mode, with every cached pair equal to the pure
cube value of its key, `rgb_to_color_pair` returns exactly the pure cube
value and preserves the invariant. -/
def wide_cache_ok (a : CursesColorAdapter) : Prop :=
  a.has_colors = true ∧ a.supports_256_colors = true ∧
    ∀ kv ∈ a.rgb_to_pair_cache, kv.2 = wide_pure_pair a.max_pairs kv.1

/-! ## Helper lemmas about the dict model -/

theorem dictGet_mem {κ β : Type} [DecidableEq κ] {d : List (κ × β)} {k : κ} {v : β}
    (h : dictGet d k = some v) : (k, v) ∈ d := by
  induction d with
  | nil => simp [dictGet] at h
  | cons kv rest ih =>
    obtain ⟨k', v'⟩ := kv
    by_cases hk : k = k'
    · simp [dictGet, hk] at h
      simp [hk, h]
    · simp [dictGet, hk] at h
      exact List.mem_cons_of_mem _ (ih h)

theorem dictGet_dictSet_self {κ β : Type} [DecidableEq κ] (d : List (κ × β)) (k : κ)
    (v : β) : dictGet (dictSet d k v) k = some v := by
  induction d with
  | nil => simp [dictGet, dictSet]
  | cons kv rest ih =>
    obtain ⟨k', v'⟩ := kv
    by_cases hk : k = k'
    · simp [dictSet, hk, dictGet]
    · simp [dictSet, hk, dictGet, ih]

theorem dictGet_dictSet_ne {κ β : Type} [DecidableEq κ] (d : List (κ × β)) (k k' : κ)
    (v : β) (h : k' ≠ k) : dictGet (dictSet d k v) k' = dictGet d k' := by
  induction d with
  | nil => simp [dictGet, dictSet, h]
  | cons kv rest ih =>
    obtain ⟨k₀, v₀⟩ := kv
    by_cases hk : k = k₀
    · subst hk
      simp [dictSet, dictGet, h]
    · by_cases hk' : k' = k₀ <;> simp [dictSet, hk, dictGet, hk', ih]

theorem mem_dictSet {κ β : Type} [DecidableEq κ] {d : List (κ × β)} {k : κ} {v : β}
    {kv : κ × β} (h : kv ∈ dictSet d k v) : kv = (k, v) ∨ kv ∈ d := by
  induction d with
  | nil => simpa [dictSet] using h
  | cons kv₀ rest ih =>
    obtain ⟨k₀, v₀⟩ := kv₀
    by_cases hk : k = k₀
    · subst hk
      have e : dictSet ((k, v₀) :: rest) k v = (k, v) :: rest := by
        simp [dictSet]
      rw [e, List.mem_cons] at h
      rcases h with h1 | h1
      · exact Or.inl h1
      · exact Or.inr (List.mem_cons_of_mem _ h1)
    · simp only [dictSet, if_neg hk, List.mem_cons] at h
      rcases h with h | h
      · exact Or.inr (by simp [h])
      · rcases ih h with h' | h'
        · exact Or.inl h'
        · exact Or.inr (List.mem_cons_of_mem _ h')

theorem mem_dictDel {κ β : Type} [DecidableEq κ] {d : List (κ × β)} {k : κ}
    {kv : κ × β} (h : kv ∈ dictDel d k) : kv ∈ d := by
  induction d with
  | nil => simpa [dictDel] using h
  | cons kv₀ rest ih =>
    obtain ⟨k₀, v₀⟩ := kv₀
    by_cases hk : k = k₀
    · rw [dictDel, if_pos hk] at h
      exact List.mem_cons_of_mem _ h
    · rw [dictDel, if_neg hk, List.mem_cons] at h
      rcases h with h | h
      · simp [h]
      · exact List.mem_cons_of_mem _ (ih h)

theorem dictSet_length {κ β : Type} [DecidableEq κ] (d : List (κ × β)) (k : κ) (v : β) :
    (dictSet d k v).length = if (dictGet d k).isSome then d.length else d.length + 1 := by
  induction d with
  | nil => simp [dictSet, dictGet]
  | cons kv rest ih =>
    obtain ⟨k₀, v₀⟩ := kv
    by_cases hk : k = k₀
    · simp [dictSet, hk, dictGet]
    · have h1 : dictSet ((k₀, v₀) :: rest) k v = (k₀, v₀) :: dictSet rest k v := by
        simp [dictSet, hk]
      have h2 : dictGet ((k₀, v₀) :: rest) k = dictGet rest k := by
        simp [dictGet, hk]
      rw [h1, h2, List.length_cons, List.length_cons, ih]
      by_cases hs : (dictGet rest k).isSome <;> simp [hs]

theorem dictDel_length_le {κ β : Type} [DecidableEq κ] (d : List (κ × β)) (k : κ) :
    (dictDel d k).length ≤ d.length := by
  induction d with
  | nil => simp [dictDel]
  | cons kv rest ih =>
    obtain ⟨k₀, v₀⟩ := kv
    by_cases hk : k = k₀ <;> simp [dictDel, hk] <;> omega

theorem dictDel_length_of_mem {κ β : Type} [DecidableEq κ] {d : List (κ × β)} {k : κ}
    (h : (dictGet d k).isSome) : (dictDel d k).length + 1 = d.length := by
  induction d with
  | nil => simp [dictGet] at h
  | cons kv rest ih =>
    obtain ⟨k₀, v₀⟩ := kv
    by_cases hk : k = k₀
    · simp [dictDel, hk]
    · simp only [dictGet, hk, if_neg] at h
      simp [dictDel, hk, ih h]

theorem dictGet_isSome_of_mem_keys {κ β : Type} [DecidableEq κ] {d : List (κ × β)}
    {k : κ} (h : k ∈ d.map Prod.fst) : (dictGet d k).isSome := by
  induction d with
  | nil => simp at h
  | cons kv rest ih =>
    obtain ⟨k₀, v₀⟩ := kv
    by_cases hk : k = k₀
    · simp [dictGet, hk]
    · rw [List.map_cons, List.mem_cons] at h
      rcases h with h | h
      · exact absurd h hk
      · simp [dictGet, hk, ih h]

theorem dictGet_eq_none_of_not_mem_keys {κ β : Type} [DecidableEq κ] {d : List (κ × β)}
    {k : κ} (h : k ∉ d.map Prod.fst) : dictGet d k = none := by
  induction d with
  | nil => simp [dictGet]
  | cons kv rest ih =>
    obtain ⟨k₀, v₀⟩ := kv
    rw [List.map_cons, List.mem_cons, not_or] at h
    simp [dictGet, h.1, ih h.2]

theorem dictDel_keys_subset {κ β : Type} [DecidableEq κ] {d : List (κ × β)} {k k' : κ}
    (h : k' ∈ (dictDel d k).map Prod.fst) : k' ∈ d.map Prod.fst := by
  induction d with
  | nil => simpa [dictDel] using h
  | cons kv rest ih =>
    obtain ⟨k₀, v₀⟩ := kv
    by_cases hk : k = k₀
    · rw [dictDel, if_pos hk] at h
      rw [List.map_cons, List.mem_cons]
      exact Or.inr h
    · rw [dictDel, if_neg hk] at h
      rw [List.map_cons, List.mem_cons] at h ⊢
      rcases h with h | h
      · exact Or.inl h
      · exact Or.inr (ih h)

theorem dictGet_dictDel_self_of_nodup {κ β : Type} [DecidableEq κ] {d : List (κ × β)}
    {k : κ} (hnd : (d.map Prod.fst).Nodup) : dictGet (dictDel d k) k = none := by
  induction d with
  | nil => simp [dictDel, dictGet]
  | cons kv rest ih =>
    obtain ⟨k₀, v₀⟩ := kv
    rw [List.map_cons, List.nodup_cons] at hnd
    by_cases hk : k = k₀
    · subst hk
      rw [dictDel, if_pos rfl]
      exact dictGet_eq_none_of_not_mem_keys hnd.1
    · rw [dictDel, if_neg hk]
      simp [dictGet, hk, ih hnd.2]

theorem dictMinEntry_mem {κ : Type} :
    ∀ {d : List (κ × ℚ)} {e : κ × ℚ}, dictMinEntry d = some e → e ∈ d
  | [], e, h => by simp [dictMinEntry] at h
  | (k₀, v₀) :: rest, e, h => by
    cases hrec : dictMinEntry rest with
    | none =>
      simp only [dictMinEntry, hrec] at h
      injection h with h2
      exact List.mem_cons.mpr (Or.inl h2.symm)
    | some e' =>
      obtain ⟨k', v'⟩ := e'
      simp only [dictMinEntry, hrec] at h
      by_cases hle : v₀ ≤ v'
      · rw [if_pos hle] at h
        injection h with h2
        exact List.mem_cons.mpr (Or.inl h2.symm)
      · rw [if_neg hle] at h
        exact List.mem_cons_of_mem _ (dictMinEntry_mem (h ▸ hrec))

theorem dictMinKey_mem_keys {κ : Type} {d : List (κ × ℚ)} {k : κ}
    (h : dictMinKey d = some k) : k ∈ d.map Prod.fst := by
  rw [dictMinKey] at h
  cases he : dictMinEntry d with
  | none =>
    rw [he] at h
    exact Option.noConfusion h
  | some e =>
    rw [he] at h
    have hk : e.1 = k := Option.some.inj h
    subst hk
    exact List.mem_map_of_mem Prod.fst (dictMinEntry_mem he)

/-! ## C5 — per-tick phase updates -/

/-- Shared wrap-step fact: one additive advance followed by a single
conditional subtraction of the period. -/
theorem wrap_step (x inc period : ℚ) (h₀ : 0 ≤ x) (h₁ : x < period) (hi : 0 < inc)
    (hle : inc ≤ period) :
    (if period ≤ x + inc then x + inc - period else x + inc) =
        x + inc - (if period ≤ x + inc then period else 0) ∧
      0 ≤ (if period ≤ x + inc then x + inc - period else x + inc) ∧
      (if period ≤ x + inc then x + inc - period else x + inc) < period := by
  split_ifs with h
  · exact ⟨rfl, by linarith, by linarith⟩
  · exact ⟨by ring, by linarith, by linarith⟩

/-- C5 (amended): each scalar-phase mode advances its phase by
`speed × update_interval × rate` (0.5 wave, `math.pi` spin, 2.0 pulse,
0.7 flux) and subtracts the period at most once, so the updated phase
stays in the periodic domain (`[0,1)` resp. `[0,2π)`) provided the
per-tick increment does not exceed the period; `speed × update_interval
≤ 1/2` suffices for all four modes. -/
theorem update_animation_state_advance_and_domain
    (wave_offset pulse_offset flux_offset angle speed dt : ℚ)
    (hw₀ : 0 ≤ wave_offset) (hw₁ : wave_offset < 1)
    (hp₀ : 0 ≤ pulse_offset) (hp₁ : pulse_offset < 1)
    (hf₀ : 0 ≤ flux_offset) (hf₁ : flux_offset < 1)
    (ha₀ : 0 ≤ angle) (ha₁ : angle < 2 * mathPi)
    (hs : 0 < speed) (hd : 0 < dt) (hsmall : speed * dt ≤ 1 / 2) :
    (wave_update_animation_state wave_offset speed dt =
        wave_offset + speed * dt * 0.5 -
          (if 1 ≤ wave_offset + speed * dt * 0.5 then 1 else 0) ∧
      0 ≤ wave_update_animation_state wave_offset speed dt ∧
      wave_update_animation_state wave_offset speed dt < 1) ∧
    (pulse_update_animation_state pulse_offset speed dt =
        pulse_offset + speed * dt * 2 -
          (if 1 ≤ pulse_offset + speed * dt * 2 then 1 else 0) ∧
      0 ≤ pulse_update_animation_state pulse_offset speed dt ∧
      pulse_update_animation_state pulse_offset speed dt < 1) ∧
    (flux_update_animation_state flux_offset speed dt =
        flux_offset + speed * dt * 0.7 -
          (if 1 ≤ flux_offset + speed * dt * 0.7 then 1 else 0) ∧
      0 ≤ flux_update_animation_state flux_offset speed dt ∧
      flux_update_animation_state flux_offset speed dt < 1) ∧
    (spin_update_animation_state angle speed dt =
        angle + speed * dt * mathPi -
          (if 2 * mathPi ≤ angle + speed * dt * mathPi then 2 * mathPi else 0) ∧
      0 ≤ spin_update_animation_state angle speed dt ∧
      spin_update_animation_state angle speed dt < 2 * mathPi) := by
  have hpos : (0 : ℚ) < speed * dt := mul_pos hs hd
  have hπ : (0 : ℚ) < mathPi := by norm_num [mathPi]
  refine ⟨?_, ?_, ?_, ?_⟩
  · have := wrap_step wave_offset (speed * dt * 0.5) 1 hw₀ hw₁ (by nlinarith) (by nlinarith)
    simpa [wave_update_animation_state] using this
  · have := wrap_step pulse_offset (speed * dt * 2) 1 hp₀ hp₁ (by nlinarith) (by nlinarith)
    simpa [pulse_update_animation_state] using this
  · have := wrap_step flux_offset (speed * dt * 0.7) 1 hf₀ hf₁ (by nlinarith) (by nlinarith)
    simpa [flux_update_animation_state] using this
  · have := wrap_step angle (speed * dt * mathPi) (2 * mathPi) ha₀ ha₁ (by nlinarith)
      (by nlinarith)
    simpa [spin_update_animation_state] using this

/-- Witness for C5 at `phase = 0` everywhere, `speed = 1`,
`dt = 1/10`. -/
theorem update_animation_state_advance_and_domain_witness :
    (wave_update_animation_state 0 1 (1 / 10) =
        (0 : ℚ) + 1 * (1 / 10) * 0.5 -
          (if 1 ≤ (0 : ℚ) + 1 * (1 / 10) * 0.5 then 1 else 0) ∧
      0 ≤ wave_update_animation_state 0 1 (1 / 10) ∧
      wave_update_animation_state 0 1 (1 / 10) < 1) ∧
    (pulse_update_animation_state 0 1 (1 / 10) =
        (0 : ℚ) + 1 * (1 / 10) * 2 -
          (if 1 ≤ (0 : ℚ) + 1 * (1 / 10) * 2 then 1 else 0) ∧
      0 ≤ pulse_update_animation_state 0 1 (1 / 10) ∧
      pulse_update_animation_state 0 1 (1 / 10) < 1) ∧
    (flux_update_animation_state 0 1 (1 / 10) =
        (0 : ℚ) + 1 * (1 / 10) * 0.7 -
          (if 1 ≤ (0 : ℚ) + 1 * (1 / 10) * 0.7 then 1 else 0) ∧
      0 ≤ flux_update_animation_state 0 1 (1 / 10) ∧
      flux_update_animation_state 0 1 (1 / 10) < 1) ∧
    (spin_update_animation_state 0 1 (1 / 10) =
        (0 : ℚ) + 1 * (1 / 10) * mathPi -
          (if 2 * mathPi ≤ (0 : ℚ) + 1 * (1 / 10) * mathPi then 2 * mathPi else 0) ∧
      0 ≤ spin_update_animation_state 0 1 (1 / 10) ∧
      spin_update_animation_state 0 1 (1 / 10) < 2 * mathPi) :=
  update_animation_state_advance_and_domain 0 0 0 0 1 (1 / 10)
    (by norm_num) (by norm_num) (by norm_num) (by norm_num) (by norm_num) (by norm_num)
    (by norm_num) (by norm_num [mathPi]) (by norm_num) (by norm_num) (by norm_num)

/-- C5 counterexample: with `speed = 4`, `update_interval = 1` the wave
offset advances from `0` to `2.0`, the wrap subtracts `1.0` only once,
and the resulting phase `1.0` is outside the claimed domain `[0, 1)`. -/
theorem wave_update_leaves_domain_for_large_step :
    wave_update_animation_state 0 4 1 = 1 ∧
      ¬ wave_update_animation_state 0 4 1 < 1 := by
  constructor
  · norm_num [wave_update_animation_state]
  · norm_num [wave_update_animation_state]

/-! ## C4 — mode-switch hand-off -/

/-- C4: pressing the mode-switch key (`m` = 109 or `M` = 77) while the
mode list index is at wave (index 0) with color scheme `red` and
text-block index 2 returns a switch result carrying exactly
`next_mode = "spin"`, `current_file_index = 2`,
`current_color_scheme = "red"` (the state advances its mode index). -/
theorem mode_switch_from_wave_carries_index_and_scheme
    (s : AnimState) (text_files : List String) (key : ℤ)
    (max_rows max_cols : ℕ) (now : ℚ) (times : ℕ → ℚ)
    (hmode : s.current_mode_index = 0)
    (hscheme : s.current_color_scheme = some "red")
    (hfile : s.current_file_index = 2)
    (hkey : key = 109 ∨ key = 77) :
    handle_input s text_files key max_rows max_cols now times =
      Except.ok (InputResult.modeSwitch "spin" 2 (some "red"),
        { s with current_mode_index := 1 }) := by
  rcases hkey with rfl | rfl <;>
    simp [handle_input, KEY_RESIZE, KEY_RIGHT, KEY_LEFT, hmode, hscheme, hfile, modes_list]

/-- Witness for C4 on a concrete state. -/
theorem mode_switch_from_wave_carries_index_and_scheme_witness :
    handle_input
      { current_file_index := 2, last_file_change := 0,
        current_color_scheme := some "red", current_color_index := 1,
        current_mode_index := 0, lines := ["hi"],
        bounds := calculate_content_bounds ["hi"] 10 10, color_palette := [],
        seq := ⟨adapter_init 500, []⟩ }
      ["a", "b", "c"] 109 10 10 0 (fun _ => 0) =
      Except.ok (InputResult.modeSwitch "spin" 2 (some "red"),
        { current_file_index := 2, last_file_change := 0,
          current_color_scheme := some "red", current_color_index := 1,
          current_mode_index := 1, lines := ["hi"],
          bounds := calculate_content_bounds ["hi"] 10 10, color_palette := [],
          seq := ⟨adapter_init 500, []⟩ }) :=
  mode_switch_from_wave_carries_index_and_scheme _ _ _ _ _ _ _
    rfl rfl rfl (Or.inl rfl)

/-! ## C9 — custom color scheme construction -/

theorem parse_hex_groups_ne_six {l : List Char} (h : l.length ≠ 6) :
    parse_hex_groups l = Except.error PyErr.valueError := by
  match l, h with
  | [], _ => rfl
  | [_], _ => rfl
  | [_, _], _ => rfl
  | [_, _, _], _ => rfl
  | [_, _, _, _], _ => rfl
  | [_, _, _, _, _], _ => rfl
  | _ :: _ :: _ :: _ :: _ :: _ :: _ :: _, _ => rfl
  | [_, _, _, _, _, _], h => exact absurd rfl h

/-- C9 (amended): construction rejects fewer than 2 colors; a 3-tuple is
accepted with each channel silently clamped to `[0,255]` (rather than
rejected); a string is stripped of one leading `#` and must then have
exactly 6 characters (so 3- and 5-digit hex strings are rejected) —
when it does and the three 2-character groups parse as hexadecimal
integers, the color is accepted with exactly those channel values (so
6-digit hex strings are accepted with or without the leading `#`); a
tuple of any other arity and any non-tuple non-string value are
rejected. -/
theorem custom_colors_construction_validation
    (colors : List ColorInput) (r g b : ℤ) (channels : List ℤ) (s : String)
    (hlen : colors.length < 2) (hch : channels.length ≠ 3)
    (hs : (if s.toList.head? = some '#' then s.toList.tail else s.toList).length ≠ 6) :
    custom_colors_init colors = Except.error PyErr.valueError ∧
    normalize_color (ColorInput.tuple [r, g, b]) =
      Except.ok (max 0 (min 255 r), max 0 (min 255 g), max 0 (min 255 b)) ∧
    normalize_color (ColorInput.tuple channels) = Except.error PyErr.valueError ∧
    normalize_color (ColorInput.str s) = Except.error PyErr.valueError ∧
    (∀ (s6 : String) (h1 h2 h3 h4 h5 h6 : Char) (rv gv bv : ℤ),
      (if s6.toList.head? = some '#' then s6.toList.tail else s6.toList) =
        [h1, h2, h3, h4, h5, h6] →
      pyIntHex2 h1 h2 = some rv →
      pyIntHex2 h3 h4 = some gv →
      pyIntHex2 h5 h6 = some bv →
      normalize_color (ColorInput.str s6) = Except.ok (rv, gv, bv)) ∧
    normalize_color ColorInput.otherValue = Except.error PyErr.valueError := by
  refine ⟨?_, rfl, ?_, ?_, ?_, rfl⟩
  · unfold custom_colors_init
    rw [if_pos hlen]
  · match channels, hch with
    | [], _ => rfl
    | [_], _ => rfl
    | [_, _], _ => rfl
    | _ :: _ :: _ :: _ :: _, _ => rfl
    | [x, y, z], h => exact absurd rfl h
  · exact parse_hex_groups_ne_six hs
  · intro s6 h1 h2 h3 h4 h5 h6 rv gv bv hstrip hr hg hb
    show parse_hex_groups
        (if s6.toList.head? = some '#' then s6.toList.tail else s6.toList) =
      Except.ok (rv, gv, bv)
    rw [hstrip]
    simp only [parse_hex_groups, hr, hg, hb]

/-- Witness for C9 at concrete inputs (`[single]`, a clamped tuple, a
4-tuple, the 3-digit hex string `"#f00"`, and the accepted 6-digit hex
strings `"#ff8020"` and `"00ff00"`). -/
theorem custom_colors_construction_validation_witness :
    custom_colors_init [ColorInput.tuple [1, 2, 3]] = Except.error PyErr.valueError ∧
    normalize_color (ColorInput.tuple [300, -4, 10]) =
      Except.ok (max 0 (min 255 300), max 0 (min 255 (-4)), max 0 (min 255 10)) ∧
    normalize_color (ColorInput.tuple [1, 2, 3, 4]) = Except.error PyErr.valueError ∧
    normalize_color (ColorInput.str "#f00") = Except.error PyErr.valueError ∧
    normalize_color (ColorInput.str "#ff8020") = Except.ok (255, 128, 32) ∧
    normalize_color (ColorInput.str "00ff00") = Except.ok (0, 255, 0) ∧
    normalize_color ColorInput.otherValue = Except.error PyErr.valueError := by
  have h := custom_colors_construction_validation [ColorInput.tuple [1, 2, 3]] 300 (-4)
    10 [1, 2, 3, 4] "#f00" (by decide) (by decide) (by decide)
  exact ⟨h.1, h.2.1, h.2.2.1, h.2.2.2.1,
    h.2.2.2.2.1 "#ff8020" 'f' 'f' '8' '0' '2' '0' 255 128 32
      (by decide) (by decide) (by decide) (by decide),
    h.2.2.2.2.1 "00ff00" '0' '0' 'f' 'f' '0' '0' 0 255 0
      (by decide) (by decide) (by decide) (by decide),
    h.2.2.2.2.2⟩

/-- C9 counterexample: the constructor accepts `(300, 0, 0)` and silently
clamps it to `(255, 0, 0)` instead of rejecting the out-of-range channel
— construction does clamp scheme inputs. -/
theorem custom_colors_silently_clamps_channel :
    custom_colors_init [ColorInput.tuple [300, 0, 0], ColorInput.tuple [0, 0, 255]] =
        Except.ok [(255, 0, 0), (0, 0, 255)] ∧
      (255 : ℤ) ≠ 300 := by
  constructor
  · rfl
  · decide

/-! ## C10 — all-blank text blocks -/

theorem draw_line_chars_of_blank (attr_of : ℕ → ℕ → String → CursesAttr)
    (bounds : ContentBounds) (max_rows max_cols line_idx : ℕ) (line : String)
    (h : line_has_content line = false) :
    draw_line_chars attr_of bounds max_rows max_cols line_idx line = [] := by
  have hall : ∀ c ∈ line.toList, c.isWhitespace := by
    intro c hc
    by_contra hw
    have : line.toList.any (fun c => !c.isWhitespace) = true :=
      List.any_eq_true.mpr ⟨c, hc, by simpa using hw⟩
    rw [line_has_content] at h
    rw [h] at this
    exact Bool.noConfusion this
  apply List.filterMap_eq_nil.mpr
  intro p hp
  have hpc : p.2 ∈ line.toList := by
    have := List.mem_enum_iff_getElem?.mp hp
    exact List.getElem?_mem (by simpa using this)
  simp [hall p.2 hpc]

theorem draw_frame_chars_of_blank (attr_of : ℕ → ℕ → String → CursesAttr)
    (bounds : ContentBounds) (max_rows max_cols : ℕ) (lines : List String)
    (h : ∀ l ∈ lines, line_has_content l = false) :
    ∀ k, draw_frame_chars attr_of bounds max_rows max_cols k lines = [] := by
  induction lines with
  | nil => intro k; rfl
  | cons line rest ih =>
    intro k
    rw [draw_frame_chars]
    split
    · rfl
    · rw [draw_line_chars_of_blank _ _ _ _ _ _ (h line (List.mem_cons_self _ _)),
        List.nil_append]
      exact ih (fun l hl => h l (List.mem_cons_of_mem _ hl)) (k + 1)

/-- C10 (amended): for a TextBlock with no non-blank line, no character is
drawn by any of the five modes' draw passes (for any geometry, palette and
terminal size); the ContentBounds degenerate to the zero-size region only
when the line list is empty — for a non-empty all-blank block the bounds
span all lines (`content_height = len(lines)`, `content_width` = maximum
line length). -/
theorem blank_textblock_draws_nothing
    (lines : List String) (max_rows max_cols : ℕ)
    (hblank : ∀ l ∈ lines, line_has_content l = false)
    (bounds : ContentBounds) (color_palette cached_gradient_attrs : List CursesAttr)
    (animation_offset rotation_angle pulse_offset flux_offset : ℚ)
    (atan2f : ℤ → ℤ → ℚ) (sqrtf : ℚ → ℚ) (center_row center_col : ℤ)
    (wave_field : Option (WaveFieldState ℚ)) :
    (lines = [] →
      calculate_content_bounds lines max_rows max_cols = ⟨0, 0, 0, 0, 0, 0⟩) ∧
    (lines ≠ [] →
      (calculate_content_bounds lines max_rows max_cols).content_height =
          lines.length ∧
        (calculate_content_bounds lines max_rows max_cols).content_width =
          lines.foldl (fun m l => max m l.length) 0) ∧
    draw_frame_wave lines bounds animation_offset color_palette max_rows max_cols
        = [] ∧
    draw_frame_spin atan2f lines bounds rotation_angle center_row center_col
        color_palette max_rows max_cols = [] ∧
    draw_frame_pulse sqrtf lines bounds pulse_offset center_row center_col
        color_palette max_rows max_cols = [] ∧
    draw_frame_flux lines bounds flux_offset color_palette max_rows max_cols = [] ∧
    draw_frame_morph lines bounds wave_field cached_gradient_attrs max_rows max_cols
        = [] := by
  have hfind : lines.findIdx? line_has_content = none :=
    List.findIdx?_eq_none_iff.mpr (fun l hl => by simp [hblank l hl])
  have hfindrev : lines.reverse.findIdx? line_has_content = none :=
    List.findIdx?_eq_none_iff.mpr
      (fun l hl => by simp [hblank l (List.mem_reverse.mp hl)])
  refine ⟨fun hnil => by subst hnil; rfl, fun hne => ?_,
    draw_frame_chars_of_blank _ _ _ _ _ hblank 0,
    draw_frame_chars_of_blank _ _ _ _ _ hblank 0,
    draw_frame_chars_of_blank _ _ _ _ _ hblank 0,
    draw_frame_chars_of_blank _ _ _ _ _ hblank 0,
    draw_frame_chars_of_blank _ _ _ _ _ hblank 0⟩
  have hlen : 1 ≤ lines.length := by
    cases lines with
    | nil => exact absurd rfl hne
    | cons a l => simp
  have hempty : lines.isEmpty = false := by
    cases lines with
    | nil => exact absurd rfl hne
    | cons a l => rfl
  rw [calculate_content_bounds, hempty]
  simp only [Bool.false_eq_true, if_false, hfind, hfindrev, Option.getD_none]
  constructor
  · rw [Nat.sub_zero, Nat.sub_add_cancel hlen]
  · rw [List.drop_zero, Nat.sub_zero, Nat.sub_add_cancel hlen, List.take_length]

/-- C10 counterexample: the one-blank-line block `[""]` has no non-blank
line, yet its computed bounds have `content_height = 1`, not the claimed
zero-size region. -/
theorem blank_textblock_bounds_are_not_zero_size :
    line_has_content "" = false ∧
      (calculate_content_bounds [""] 10 10).content_height = 1 ∧
      ¬((calculate_content_bounds [""] 10 10).content_height = 0 ∧
        (calculate_content_bounds [""] 10 10).content_width = 0) := by
  refine ⟨rfl, rfl, ?_⟩
  intro h
  exact absurd h.1 (by decide)

/-- Witness for C10 on the two-blank-line block `["", " "]` with a 5×7
terminal. -/
theorem blank_textblock_draws_nothing_witness :
    (["", " "] = ([] : List String) →
      calculate_content_bounds ["", " "] 5 7 = ⟨0, 0, 0, 0, 0, 0⟩) ∧
    (["", " "] ≠ ([] : List String) →
      (calculate_content_bounds ["", " "] 5 7).content_height = (["", " "] : List String).length ∧
        (calculate_content_bounds ["", " "] 5 7).content_width =
          (["", " "] : List String).foldl (fun m l => max m l.length) 0) ∧
    draw_frame_wave ["", " "] (calculate_content_bounds ["", " "] 5 7) 0 [] 5 7 = [] ∧
    draw_frame_spin (fun _ _ => 0) ["", " "] (calculate_content_bounds ["", " "] 5 7)
        0 0 0 [] 5 7 = [] ∧
    draw_frame_pulse (fun _ => 0) ["", " "] (calculate_content_bounds ["", " "] 5 7)
        0 0 0 [] 5 7 = [] ∧
    draw_frame_flux ["", " "] (calculate_content_bounds ["", " "] 5 7) 0 [] 5 7 = [] ∧
    draw_frame_morph ["", " "] (calculate_content_bounds ["", " "] 5 7) none [] 5 7
        = [] :=
  blank_textblock_draws_nothing ["", " "] 5 7 (by decide)
    (calculate_content_bounds ["", " "] 5 7) [] [] 0 0 0 0 (fun _ _ => 0) (fun _ => 0)
    0 0 none

/-! ## C6 — RGB→attribute cache repeat queries -/

/-- C6: after a successful `rgb_to_color_pair` query on a color-capable
terminal made while the cache held fewer than `max_rgb_cache_size`
entries, the triple is in the cache with the returned value, and an
immediately repeated query returns the identical value through the cache
hit path, leaving the cache mapping (and hence the number of cached
entries) unchanged. -/
theorem rgb_cache_repeat_query (a : CursesColorAdapter) (rgb : RGB) (t1 t2 : ℚ)
    (v : ℤ) (a1 : CursesColorAdapter)
    (hcolors : a.has_colors = true)
    (hsize : a.rgb_to_pair_cache.length < a.max_rgb_cache_size)
    (h1 : rgb_to_color_pair a rgb t1 = Except.ok (v, a1)) :
    dictGet a1.rgb_to_pair_cache rgb = some v ∧
      ∃ a2, rgb_to_color_pair a1 rgb t2 = Except.ok (v, a2) ∧
        a2.rgb_to_pair_cache = a1.rgb_to_pair_cache := by
  have hmem : dictGet a1.rgb_to_pair_cache rgb = some v := by
    unfold rgb_to_color_pair at h1
    cases hc : dictGet a.rgb_to_pair_cache rgb with
    | some cached =>
      rw [hc] at h1
      simp only [Except.ok.injEq, Prod.mk.injEq] at h1
      obtain ⟨hv, ha⟩ := h1
      rw [← ha]
      rw [← hv]
      exact hc
    | none =>
      rw [hc] at h1
      rw [hcolors] at h1
      simp only [Bool.true_eq_false, if_false] at h1
      have hnoev : ¬ a.max_rgb_cache_size ≤ a.rgb_to_pair_cache.length := by omega
      cases hsup : a.supports_256_colors with
      | true =>
        rw [hsup] at h1
        simp only [if_true, if_neg hnoev] at h1
        simp only [Except.ok.injEq, Prod.mk.injEq] at h1
        obtain ⟨hv, ha⟩ := h1
        rw [← ha, ← hv]
        exact dictGet_dictSet_self _ _ _
      | false =>
        rw [hsup] at h1
        simp only [Bool.false_eq_true, if_false] at h1
        cases hstd : a.standard_colors with
        | none =>
          rw [hstd] at h1
          exact Except.noConfusion h1
        | some table =>
          rw [hstd] at h1
          simp only [if_neg hnoev] at h1
          simp only [Except.ok.injEq, Prod.mk.injEq] at h1
          obtain ⟨hv, ha⟩ := h1
          rw [← ha, ← hv]
          exact dictGet_dictSet_self _ _ _
  refine ⟨hmem,
    ⟨{ a1 with rgb_cache_access_times := dictSet a1.rgb_cache_access_times rgb t2 },
      ?_, rfl⟩⟩
  unfold rgb_to_color_pair
  rw [hmem]

/-- Witness for C6: the fresh 256-color adapter queried twice with
`(10, 20, 30)`. -/
theorem rgb_cache_repeat_query_witness :
    dictGet wide_adapter_after_query.rgb_to_pair_cache ((10 : ℤ), (20 : ℤ), (30 : ℤ)) =
        some 16 ∧
      ∃ a2, rgb_to_color_pair wide_adapter_after_query
            ((10 : ℤ), (20 : ℤ), (30 : ℤ)) 1 = Except.ok (16, a2) ∧
          a2.rgb_to_pair_cache = wide_adapter_after_query.rgb_to_pair_cache :=
  rgb_cache_repeat_query wide_adapter_state ((10 : ℤ), (20 : ℤ), (30 : ℤ)) 0 1 16
    wide_adapter_after_query rfl (by decide) rfl

/-! ## C3 — narrow-mode (8-color) nearest-color lookup -/

/-- C3 (code bug): on an 8-color terminal the color setup and the
claimed nearest-color search both raise `AttributeError`, because the
`standard_colors`/`curses_colors` tables are assigned inside
`_evict_oldest_rgb_cache` instead of `__init__`: `initialize_colors`
fails at `self.curses_colors`, and `rgb_to_color_pair` on an uncached
triple fails at `self.standard_colors` instead of performing the
linear search the claim (and the spec) describe. -/
theorem narrow_mode_lookup_raises_attribute_error :
    initialize_colors (adapter_init 500) true 8 64 false =
        Except.error (PyErr.attributeError "curses_colors") ∧
      rgb_to_color_pair narrow_adapter_state (200, 10, 10) 0 =
        Except.error (PyErr.attributeError "standard_colors") :=
  ⟨rfl, rfl⟩

/-! ## C7 — cache bounding and eviction -/

theorem dictMinKey_isSome {κ : Type} {d : List (κ × ℚ)} (h : d ≠ []) :
    (dictMinKey d).isSome := by
  cases d with
  | nil => exact absurd rfl h
  | cons kv rest =>
    obtain ⟨k₀, v₀⟩ := kv
    rw [dictMinKey]
    cases hrec : dictMinEntry rest with
    | none => simp [dictMinEntry, hrec]
    | some e' =>
      obtain ⟨k', v'⟩ := e'
      by_cases hle : v₀ ≤ v' <;> simp [dictMinEntry, hrec, hle]

/-- C7 (amended): the frame cache (`ColorFrameCache`) is a bounded LRU
cache — with in-sync dicts and capacity ≥ 1, `store_frames` never makes
the entry count exceed the capacity, and when the cache is full and the
key fresh the single least-recently-accessed entry (first minimum in
insertion order) is removed.  The attribute-sequence cache
(`CursesRainbowSequence.cached_sequences`) is merely bounded at 100
entries: `generate_sequence` never grows it beyond 100, and when it is
full the freshly generated sequence is returned uncached with the cache
left unchanged — no entry is evicted. -/
theorem frame_cache_is_lru_and_sequence_cache_only_bounded
    (fc : ColorFrameCache) (key : String) (frames : List (List RGB)) (now : ℚ)
    (hsync : fc.cache.map Prod.fst = fc.access_times.map Prod.fst)
    (hnodup : (fc.cache.map Prod.fst).Nodup)
    (hsize : fc.cache.length ≤ fc.max_cache_size) (hcap : 1 ≤ fc.max_cache_size)
    (s : CursesRainbowSequence) (n : ℕ) (offset : ℚ) (bold : Bool)
    (scheme : Option String) (times : ℕ → ℚ)
    (hseq : s.cached_sequences.length ≤ 100) :
    (store_frames fc key frames now).cache.length ≤ fc.max_cache_size ∧
      (fc.cache.length = fc.max_cache_size → dictGet fc.cache key = none →
        ∀ oldest, dictMinKey fc.access_times = some oldest →
          dictGet (store_frames fc key frames now).cache oldest = none ∧
            (store_frames fc key frames now).cache.length = fc.max_cache_size) ∧
      ∀ res s', generate_sequence s n offset bold scheme times = Except.ok (res, s') →
        s'.cached_sequences.length ≤ 100 ∧
          (s.cached_sequences.length = 100 → s'.cached_sequences = s.cached_sequences) := by
  have haccess_len : fc.access_times.length = fc.cache.length := by
    have := congrArg List.length hsync
    simpa using this.symm
  refine ⟨?_, ?_, ?_⟩
  · unfold store_frames
    by_cases hfull : fc.max_cache_size ≤ fc.cache.length
    · have hlen : fc.cache.length = fc.max_cache_size := le_antisymm hsize hfull
      rw [if_pos hfull]
      unfold frame_evict_oldest
      have hne : fc.access_times ≠ [] := by
        intro hnil
        rw [hnil] at haccess_len
        simp at haccess_len
        omega
      rw [if_neg (by simpa [List.isEmpty_iff] using hne)]
      cases hmin : dictMinKey fc.access_times with
      | none =>
        have hsome := dictMinKey_isSome hne
        rw [hmin] at hsome
        exact Bool.noConfusion hsome
      | some oldest =>
        simp only
        have holdest : oldest ∈ fc.cache.map Prod.fst := by
          rw [hsync]
          exact dictMinKey_mem_keys hmin
        have hdel : (dictDel fc.cache oldest).length + 1 = fc.cache.length :=
          dictDel_length_of_mem (dictGet_isSome_of_mem_keys holdest)
        rw [dictSet_length]
        by_cases hks : (dictGet (dictDel fc.cache oldest) key).isSome <;>
          simp [hks] <;> omega
    · rw [if_neg hfull]
      rw [dictSet_length]
      by_cases hks : (dictGet fc.cache key).isSome <;> simp [hks] <;> omega
  · intro hlen hfresh oldest hmin
    have hfull : fc.max_cache_size ≤ fc.cache.length := le_of_eq hlen.symm
    have hne : fc.access_times ≠ [] := by
      intro hnil
      rw [hnil] at haccess_len
      simp at haccess_len
      omega
    have holdest : oldest ∈ fc.cache.map Prod.fst := by
      rw [hsync]
      exact dictMinKey_mem_keys hmin
    have hkey_ne : oldest ≠ key := by
      intro he
      have hsome := dictGet_isSome_of_mem_keys holdest
      rw [he, hfresh] at hsome
      exact Bool.noConfusion hsome
    have hstore : (store_frames fc key frames now).cache =
        dictSet (dictDel fc.cache oldest) key frames := by
      unfold store_frames
      rw [if_pos hfull]
      unfold frame_evict_oldest
      rw [if_neg (by simpa [List.isEmpty_iff] using hne), hmin]
    constructor
    · rw [hstore, dictGet_dictSet_ne _ _ _ _ hkey_ne]
      exact dictGet_dictDel_self_of_nodup hnodup
    · rw [hstore, dictSet_length]
      have hfresh_del : dictGet (dictDel fc.cache oldest) key = none := by
        apply dictGet_eq_none_of_not_mem_keys
        intro hmem
        have := dictGet_isSome_of_mem_keys (dictDel_keys_subset hmem)
        rw [hfresh] at this
        exact Bool.noConfusion this
      rw [hfresh_del]
      have hdel : (dictDel fc.cache oldest).length + 1 = fc.cache.length :=
        dictDel_length_of_mem (dictGet_isSome_of_mem_keys holdest)
      simp only [Option.isSome_none, Bool.false_eq_true, if_false]
      omega
  · intro res s' hok
    simp only [generate_sequence] at hok
    split at hok
    · simp only [Except.ok.injEq, Prod.mk.injEq] at hok
      rw [← hok.2]
      exact ⟨hseq, fun _ => rfl⟩
    · split at hok
      · exact Except.noConfusion hok
      · simp only [Except.ok.injEq, Prod.mk.injEq] at hok
        rw [← hok.2]
        by_cases hlt : s.cached_sequences.length < 100
        · constructor
          · simp only [hlt, if_true]
            rw [dictSet_length]
            by_cases hks : (dictGet s.cached_sequences
                ⟨n, roundHalfEven (offset * 1000), bold, scheme.getD "rainbow"⟩).isSome <;>
              simp [hks] <;> omega
          · intro h100
            omega
        · constructor
          · simp only [hlt, if_false]
            exact hseq
          · intro _
            simp [hlt]

/-- C7 counterexample: with the attribute-sequence cache at its 100-entry
bound, a `generate_sequence` call on a fresh key evicts nothing and
stores nothing — the cache comes back unchanged (and the fresh key is
still absent), contradicting the claimed evict-one-LRU-entry insertion
behaviour. -/
theorem sequence_cache_full_does_not_evict :
    full_seq_cache.cached_sequences.length = 100 ∧
      dictGet full_seq_cache.cached_sequences ⟨1, 0, true, "nope"⟩ = none ∧
      Except.map (fun r => r.2.cached_sequences)
          (generate_sequence full_seq_cache 1 0 true (some "nope") (fun _ => 0)) =
        Except.ok full_seq_cache.cached_sequences := by
  refine ⟨by decide, by decide, rfl⟩

/-- Witness for C7 on a one-entry frame cache of capacity 1 and an empty
sequence cache. -/
theorem frame_cache_is_lru_and_sequence_cache_only_bounded_witness :
    (store_frames ⟨1, [("a", [])], [("a", 0)]⟩ "b" [] 1).cache.length ≤
        (⟨1, [("a", [])], [("a", 0)]⟩ : ColorFrameCache).max_cache_size ∧
      ((⟨1, [("a", [])], [("a", 0)]⟩ : ColorFrameCache).cache.length =
          (⟨1, [("a", [])], [("a", 0)]⟩ : ColorFrameCache).max_cache_size →
        dictGet (⟨1, [("a", [])], [("a", 0)]⟩ : ColorFrameCache).cache "b" = none →
        ∀ oldest,
          dictMinKey (⟨1, [("a", [])], [("a", 0)]⟩ : ColorFrameCache).access_times =
            some oldest →
          dictGet (store_frames ⟨1, [("a", [])], [("a", 0)]⟩ "b" [] 1).cache oldest =
              none ∧
            (store_frames ⟨1, [("a", [])], [("a", 0)]⟩ "b" [] 1).cache.length =
              (⟨1, [("a", [])], [("a", 0)]⟩ : ColorFrameCache).max_cache_size) ∧
      ∀ res s', generate_sequence ⟨wide_adapter_state, []⟩ 0 0 true none (fun _ => 0) =
          Except.ok (res, s') →
        s'.cached_sequences.length ≤ 100 ∧
          ((⟨wide_adapter_state, []⟩ : CursesRainbowSequence).cached_sequences.length =
              100 →
            s'.cached_sequences =
              (⟨wide_adapter_state, []⟩ : CursesRainbowSequence).cached_sequences) :=
  frame_cache_is_lru_and_sequence_cache_only_bounded
    ⟨1, [("a", [])], [("a", 0)]⟩ "b" [] 1 (by decide) (by decide) (by decide)
    (by decide) ⟨wide_adapter_state, []⟩ 0 0 true none (fun _ => 0) (by decide)

/-! ## C1 — the 360-entry palette and the per-character lookup -/


theorem generate_monochromatic_gradient_length (name : String) (n : ℕ) (off : ℚ) :
    (generate_monochromatic_gradient name n off).length = n := by
  unfold generate_monochromatic_gradient
  by_cases h : n = 0
  · rw [if_pos h, h]
    rfl
  · rw [if_neg h]
    cases hdg : dictGet color_gradients name with
    | none => simp [generate_rainbow_sequence_length]
    | some g => simp

theorem generate_monochromatic_gradient_getD (name : String) (n : ℕ) (off : ℚ)
    (i : ℕ) (hi : i < n) :
    (generate_monochromatic_gradient name n off).getD i (0, 0, 0) =
      scheme_sample (some name) n off i := by
  have hn : n ≠ 0 := by omega
  unfold generate_monochromatic_gradient scheme_sample
  rw [if_neg hn]
  cases hdg : dictGet color_gradients name with
  | none =>
    simp only [hdg, scheme_sample]
    exact generate_rainbow_sequence_getD n 1 1 off i hi
  | some g =>
    simp only [hdg, scheme_sample]
    rw [List.getD_eq_getElem?_getD, List.getElem?_map, List.getElem?_range hi]
    rfl

theorem mem_evict_cache {a : CursesColorAdapter} {kv : RGB × ℤ}
    (h : kv ∈ (evict_oldest_rgb_cache a).rgb_to_pair_cache) :
    kv ∈ a.rgb_to_pair_cache := by
  by_cases he : a.rgb_cache_access_times.isEmpty
  · rwa [evict_oldest_rgb_cache, if_pos he] at h
  · rw [evict_oldest_rgb_cache, if_neg he] at h
    cases hm : dictMinKey a.rgb_cache_access_times with
    | none => rwa [hm] at h
    | some o =>
      rw [hm] at h
      exact mem_dictDel h

theorem evict_preserves_fields (a : CursesColorAdapter) :
    (evict_oldest_rgb_cache a).max_pairs = a.max_pairs ∧
      (evict_oldest_rgb_cache a).has_colors = a.has_colors ∧
      (evict_oldest_rgb_cache a).supports_256_colors = a.supports_256_colors := by
  rw [evict_oldest_rgb_cache]
  split
  · exact ⟨rfl, rfl, rfl⟩
  · cases dictMinKey a.rgb_cache_access_times with
    | none => exact ⟨rfl, rfl, rfl⟩
    | some o => exact ⟨rfl, rfl, rfl⟩

theorem rgb_to_color_pair_wide (a : CursesColorAdapter) (rgb : RGB) (now : ℚ)
    (h : wide_cache_ok a) :
    ∃ a', rgb_to_color_pair a rgb now =
        Except.ok (wide_pure_pair a.max_pairs rgb, a') ∧
      wide_cache_ok a' ∧ a'.max_pairs = a.max_pairs := by
  obtain ⟨hc, hs, hinv⟩ := h
  unfold rgb_to_color_pair
  cases hget : dictGet a.rgb_to_pair_cache rgb with
  | some cached =>
    have hcached : cached = wide_pure_pair a.max_pairs rgb :=
      hinv (rgb, cached) (dictGet_mem hget)
    subst hcached
    exact ⟨_, rfl, ⟨hc, hs, hinv⟩, rfl⟩
  | none =>
    simp only [hc, hs, Bool.true_eq_false, if_false, if_true]
    refine ⟨_, rfl, ⟨?_, ?_, ?_⟩, ?_⟩
    · by_cases hcond : a.max_rgb_cache_size ≤ a.rgb_to_pair_cache.length <;>
        simp [hcond, (evict_preserves_fields a).2.1, hc]
    · by_cases hcond : a.max_rgb_cache_size ≤ a.rgb_to_pair_cache.length <;>
        simp [hcond, (evict_preserves_fields a).2.2, hs]
    · intro kv hkv
      rcases mem_dictSet hkv with hkv | hkv
      · subst hkv
        by_cases hcond : a.max_rgb_cache_size ≤ a.rgb_to_pair_cache.length <;>
          simp [hcond, (evict_preserves_fields a).1, wide_pure_pair]
      · by_cases hcond : a.max_rgb_cache_size ≤ a.rgb_to_pair_cache.length
        · rw [if_pos hcond] at hkv
          have := hinv kv (mem_evict_cache hkv)
          rw [this]
          by_cases h2 : a.max_rgb_cache_size ≤ a.rgb_to_pair_cache.length <;>
            simp [hcond, (evict_preserves_fields a).1]
        · rw [if_neg hcond] at hkv
          have := hinv kv hkv
          rw [this]
          simp [hcond]
    · by_cases hcond : a.max_rgb_cache_size ≤ a.rgb_to_pair_cache.length <;>
        simp [hcond, (evict_preserves_fields a).1]

theorem attrs_of_rgb_list_wide (bold : Bool) (times : ℕ → ℚ) (l : List RGB) :
    ∀ (a : CursesColorAdapter) (tick : ℕ), wide_cache_ok a →
      ∃ a'', attrs_of_rgb_list a bold times tick l =
          Except.ok
            (l.map fun rgb =>
              CursesAttr.pairAttr (wide_pure_pair a.max_pairs rgb) bold false, a'') ∧
        wide_cache_ok a'' ∧ a''.max_pairs = a.max_pairs := by
  induction l with
  | nil => exact fun a tick h => ⟨a, rfl, h, rfl⟩
  | cons rgb rest ih =>
    intro a tick h
    obtain ⟨a', hpair, hok', hmp'⟩ := rgb_to_color_pair_wide a rgb (times tick) h
    have hattr : get_color_attr a rgb bold (times tick) =
        Except.ok (CursesAttr.pairAttr (wide_pure_pair a.max_pairs rgb) bold false, a') := by
      unfold get_color_attr
      rw [h.1]
      simp [hpair]
    obtain ⟨a'', hrest, hok'', hmp''⟩ := ih a' (tick + 1) hok'
    rw [hmp'] at hrest
    refine ⟨a'', ?_, hok'', by rw [hmp'', hmp']⟩
    simp only [attrs_of_rgb_list, hattr, hrest, List.map_cons]

theorem generate_sequence_fresh_wide_getD (scheme : Option String) (times : ℕ → ℚ)
    (rgbs : List RGB) (i : ℕ)
    (hscheme : (match scheme with
      | some name => generate_monochromatic_gradient name 360 0
      | none => generate_rainbow_sequence 360 0.75 0.9 0) = rgbs)
    (hlen : rgbs.length = 360) (hi : i < 360) :
    Except.map (fun r => r.1.getD i (CursesAttr.raw 1))
        (generate_sequence ⟨wide_adapter_state, []⟩ 360 0 true scheme times) =
      Except.ok
        (CursesAttr.pairAttr (wide_pure_pair 256 (rgbs.getD i (0, 0, 0))) true false) := by
  have hwide : wide_cache_ok wide_adapter_state := by
    refine ⟨rfl, rfl, ?_⟩
    intro kv hkv
    simp [wide_adapter_state, adapter_init] at hkv
  obtain ⟨a'', hattrs, hok'', hmp''⟩ :=
    attrs_of_rgb_list_wide true times rgbs wide_adapter_state 0 hwide
  simp only [generate_sequence, dictGet]
  rw [hscheme, hattrs]
  simp only [Except.map]
  congr 1
  rw [List.getD_eq_getElem?_getD, List.getElem?_map,
    List.getElem?_eq_getElem (by rw [hlen]; exact hi)]
  rw [← List.getD_eq_getElem rgbs (0, 0, 0) (by rw [hlen]; exact hi)]
  rfl

/-- C1 (amended): for the freshly initialised 256-color adapter, entry
`i` of the precomputed 360-entry palette is the attribute of the scheme
color sampled at spectrum position `i/360 + 0` — i.e. `palette[i]`
corresponds to position `i/P`, not `i/(P-1)`; a per-character lookup at
spectrum position `p ∈ [0,1)` resolves to index `⌊p·359⌋` (truncation,
not rounding); in the Wave scenario (5-column line, offset 0.05, row 0,
col 0) the character resolves to palette index `⌊0.05·359⌋ = 17`. -/
theorem palette_sampling_and_floor_lookup
    (scheme : Option String) (times : ℕ → ℚ) (i : ℕ) (hi : i < 360)
    (p : ℚ) (hp₀ : 0 ≤ p) (hp₁ : p < 1) :
    Except.map (fun r => r.1.getD i (CursesAttr.raw 1))
        (generate_sequence ⟨wide_adapter_state, []⟩ 360 0 true scheme times) =
      Except.ok
        (CursesAttr.pairAttr (wide_pure_pair 256 (scheme_sample scheme 360 0 i))
          true false) ∧
      ((palette_index 360 p : ℤ) = ⌊p * 359⌋ ∧
        palette_index 360 (1 / 20) = 17) := by
  constructor
  · cases scheme with
    | none =>
      rw [generate_sequence_fresh_wide_getD none times
        (generate_rainbow_sequence 360 0.75 0.9 0) i rfl
        (generate_rainbow_sequence_length 360 0.75 0.9 0) hi]
      rw [generate_rainbow_sequence_getD 360 0.75 0.9 0 i hi]
      rfl
    | some name =>
      rw [generate_sequence_fresh_wide_getD (some name) times
        (generate_monochromatic_gradient name 360 0) i rfl
        (generate_monochromatic_gradient_length name 360 0) hi]
      rw [generate_monochromatic_gradient_getD name 360 0 i hi]
  constructor
  · have h359 : (0 : ℚ) ≤ p * 359 := by nlinarith
    have hlt : p * 359 < 360 := by nlinarith
    have hfloor₀ : 0 ≤ ⌊p * 359⌋ := Int.floor_nonneg.mpr h359
    have hfloor₁ : ⌊p * 359⌋ < 360 := Int.floor_lt.mpr (by exact_mod_cast hlt)
    unfold palette_index pyMod pyInt
    have e : (((360 : ℕ) : ℚ) - 1) = 359 := by norm_num
    rw [e, if_pos h359,
      Int.emod_eq_of_lt hfloor₀ (by exact_mod_cast hfloor₁),
      Int.toNat_of_nonneg hfloor₀]
  · decide

/-- Witness for C1 with the rainbow scheme, `i = 0`, `p = 0`. -/
theorem palette_sampling_and_floor_lookup_witness :
    Except.map (fun r => r.1.getD 0 (CursesAttr.raw 1))
        (generate_sequence ⟨wide_adapter_state, []⟩ 360 0 true none (fun _ => 0)) =
      Except.ok
        (CursesAttr.pairAttr (wide_pure_pair 256 (scheme_sample none 360 0 0))
          true false) ∧
      (((palette_index 360 (0 : ℚ) : ℕ) : ℤ) = ⌊(0 : ℚ) * 359⌋ ∧
        palette_index 360 (1 / 20) = 17) :=
  palette_sampling_and_floor_lookup none (fun _ => 0) 0 (by decide) 0 (by norm_num)
    (by norm_num)

/-- C1 counterexample: in the claim's Wave scenario (5-column line,
animation offset 0.05, row 0, column 0) the spectrum position is 0.05,
but the palette lookup truncates rather than rounds:
`int(0.05 * 359) = 17 ≠ 18 = round(0.05 * 359)`; drawing through an
injective 360-entry palette shows the character written with entry 17. -/
theorem wave_scenario_uses_palette_index_17_not_18 :
    palette_index 360 (pyMod1 ((0 : ℚ) / 5 + 1 / 20 + 0 * 0.1)) = 17 ∧
      ¬ palette_index 360 (pyMod1 ((0 : ℚ) / 5 + 1 / 20 + 0 * 0.1)) = 18 ∧
      (draw_frame_wave ["XXXXX"] (calculate_content_bounds ["XXXXX"] 10 10) (1 / 20)
          ((List.range 360).map fun (k : ℕ) => CursesAttr.raw (k : ℤ)) 10 10).head? =
        some ⟨4, 2, 'X', CursesAttr.raw 17⟩ := by
  set_option maxRecDepth 4000 in refine ⟨by decide, by decide, ?_⟩
  set_option maxRecDepth 4000 in decide

/-! ## C2 - the morph wave field after one propagation pass -/

/-- `mapIdxFrom` preserves length. -/
theorem mapIdxFrom_length {α β : Type} (f : ℕ → α → β) (k : ℕ) (l : List α) :
    (mapIdxFrom f k l).length = l.length := by
  induction l generalizing k with
  | nil => rfl
  | cons x xs ih => simp [mapIdxFrom, ih]

/-- In-bounds `getD` of `mapIdxFrom`. -/
theorem mapIdxFrom_getD {α β : Type} (f : ℕ → α → β) (k i : ℕ) (l : List α)
    (d : α) (d' : β) (hi : i < l.length) :
    (mapIdxFrom f k l).getD i d' = f (k + i) (l.getD i d) := by
  induction l generalizing k i with
  | nil => exact absurd hi (by simp)
  | cons x xs ih =>
    cases i with
    | zero => rfl
    | succ n =>
      have hn : n < xs.length := by simpa using hi
      simp only [mapIdxFrom, List.getD_cons_succ]
      rw [ih (k + 1) n hn]
      congr 1
      omega

/-- In-bounds `getD` of `List.replicate`. -/
theorem getD_replicate {α : Type} (n i : ℕ) (x d : α) (hi : i < n) :
    (List.replicate n x).getD i d = x := by
  induction n generalizing i with
  | zero => omega
  | succ m ih =>
    cases i with
    | zero => rfl
    | succ j =>
      rw [List.replicate_succ, List.getD_cons_succ]
      exact ih j (by omega)

/-- In-bounds `getD` of a `List.range` map. -/
theorem range_map_getD {β : Type} (g : ℕ → β) (n i : ℕ) (d : β) (hi : i < n) :
    ((List.range n).map g).getD i d = g i := by
  rw [List.getD_eq_getElem?_getD, List.getElem?_map, List.getElem?_range hi]
  rfl

/-- Value of cell `(r, c)` after one `propagate_waves` pass with no
content-bounds restriction on a freshly initialised field: the domain
midpoint plus the six sine terms, clamped into `[0, max_tier]`. -/
theorem propagate_waves_cell {α : Type} [LinearOrderedField α]
    (sinf sqrtf : α → α) (rows cols max_tier : ℕ) (speed t : α)
    (r c : ℕ) (hr : r < rows) (hc : c < cols) :
    (((propagate_waves sinf (wave_field_init sqrtf rows cols max_tier) speed t
        none).heights.getD r []).getD c 0) =
      max 0 (min (max_tier : α)
        ((((max_tier / 2 : ℕ) : α)) +
          (sinf ((c : α) * 0.3 + t * 2) * ((max_tier : α) * 0.15) +
           sinf ((r : α) * 0.25 + t * 1.5) * ((max_tier : α) * 0.12) +
           sinf (((r : α) + (c : α)) * 0.2 + t * 1.8) * ((max_tier : α) * 0.1) +
           sinf (sqrtf ((((r : ℤ) - ((rows / 2 : ℕ) : ℤ)) ^ 2 +
               ((c : ℤ) - ((cols / 2 : ℕ) : ℤ)) ^ 2 : ℤ) : α) * 0.4 - t * 2.5) *
             ((max_tier : α) * 0.08) +
           sinf ((r : α) * 0.8 + (c : α) * 0.6 + t * 4) * ((max_tier : α) * 0.05)) +
          sinf ((r : α) * 1.2 + (c : α) * 1.1 + t * 3) * ((max_tier : α) * 0.03))) := by
  have hlen : r <
      (List.replicate rows (List.replicate cols ((max_tier / 2 : ℕ) : α))).length := by
    simpa using hr
  simp only [propagate_waves, wave_field_init]
  rw [mapIdxFrom_getD _ 0 r
    (List.replicate rows (List.replicate cols ((max_tier / 2 : ℕ) : α))) [] [] hlen,
    Nat.zero_add,
    getD_replicate rows r (List.replicate cols ((max_tier / 2 : ℕ) : α)) [] hr]
  simp only [decide_eq_true_eq, hr, if_true]
  rw [mapIdxFrom_getD _ 0 c (List.replicate cols ((max_tier / 2 : ℕ) : α)) 0 0
      (by simpa using hc),
    Nat.zero_add,
    getD_replicate cols c ((max_tier / 2 : ℕ) : α) 0 hc]
  simp only [hc, if_true]
  rw [range_map_getD _ rows r [] hr, range_map_getD _ cols c 0 hc]

/-- C2 (amended): after one `propagate_waves` call with `t = 0` and no
content-bounds restriction, every cell `(r, c)` of the `rows × cols`
wave field holds the domain midpoint (`max_tier // 2`) plus the sum of
the six periodic terms evaluated at `t = 0`, **clamped** into
`[0, max_tier]` (the raw sum itself can leave that interval), and
consequently every resulting height lies within `[0, max_tier]`. -/
theorem wave_field_heights_after_one_propagation {α : Type}
    [LinearOrderedField α] (sinf sqrtf : α → α)
    (rows cols max_tier : ℕ) (speed : α)
    (r c : ℕ) (hr : r < rows) (hc : c < cols) :
    (((propagate_waves sinf (wave_field_init sqrtf rows cols max_tier) speed 0
        none).heights.getD r []).getD c 0) =
      max 0 (min (max_tier : α)
        ((((max_tier / 2 : ℕ) : α)) +
          (sinf ((c : α) * 0.3 + 0 * 2) * ((max_tier : α) * 0.15) +
           sinf ((r : α) * 0.25 + 0 * 1.5) * ((max_tier : α) * 0.12) +
           sinf (((r : α) + (c : α)) * 0.2 + 0 * 1.8) * ((max_tier : α) * 0.1) +
           sinf (sqrtf ((((r : ℤ) - ((rows / 2 : ℕ) : ℤ)) ^ 2 +
               ((c : ℤ) - ((cols / 2 : ℕ) : ℤ)) ^ 2 : ℤ) : α) * 0.4 - 0 * 2.5) *
             ((max_tier : α) * 0.08) +
           sinf ((r : α) * 0.8 + (c : α) * 0.6 + 0 * 4) * ((max_tier : α) * 0.05)) +
          sinf ((r : α) * 1.2 + (c : α) * 1.1 + 0 * 3) * ((max_tier : α) * 0.03))) ∧
    0 ≤ (((propagate_waves sinf (wave_field_init sqrtf rows cols max_tier) speed 0
        none).heights.getD r []).getD c 0) ∧
    (((propagate_waves sinf (wave_field_init sqrtf rows cols max_tier) speed 0
        none).heights.getD r []).getD c 0) ≤ (max_tier : α) := by
  refine ⟨propagate_waves_cell sinf sqrtf rows cols max_tier speed 0 r c hr hc,
    ?_, ?_⟩
  · rw [propagate_waves_cell sinf sqrtf rows cols max_tier speed 0 r c hr hc]
    exact le_max_left 0 _
  · rw [propagate_waves_cell sinf sqrtf rows cols max_tier speed 0 r c hr hc]
    exact max_le (Nat.cast_nonneg max_tier) (min_le_left _ _)

/-- Witness for `wave_field_heights_after_one_propagation`: a 2×3 field
with `max_tier = 4`, trivial transcendental routines, cell `(1, 0)`. -/
theorem wave_field_heights_after_one_propagation_witness :
    (1 : ℕ) < 2 ∧ (0 : ℕ) < 3 ∧
    (0 ≤ (((propagate_waves (fun _ => (0 : ℚ))
        (wave_field_init (fun _ => (0 : ℚ)) 2 3 4) 1 0
        none).heights.getD 1 []).getD 0 0) ∧
      (((propagate_waves (fun _ => (0 : ℚ))
        (wave_field_init (fun _ => (0 : ℚ)) 2 3 4) 1 0
        none).heights.getD 1 []).getD 0 0) ≤ ((4 : ℕ) : ℚ)) :=
  ⟨by decide, by decide,
    (wave_field_heights_after_one_propagation (fun _ => (0 : ℚ))
      (fun _ => (0 : ℚ)) 2 3 4 1 1 0 (by decide) (by decide)).2⟩

/-- `sin a ≤ m² / 2 − 1` whenever `a` lies within `m` of the sine trough
`(2k + 3/2) · π`. -/
theorem sin_le_near_trough (a : ℝ) (k : ℤ) (m : ℝ)
    (hm : |(2 * (k : ℝ) + 3 / 2) * Real.pi - a| ≤ m) :
    Real.sin a ≤ m ^ 2 / 2 - 1 := by
  have h1 := Real.sin_add_int_mul_two_pi (a - (k : ℝ) * (2 * Real.pi)) k
  have e1 : a - (k : ℝ) * (2 * Real.pi) + (k : ℝ) * (2 * Real.pi) = a := by ring
  rw [e1] at h1
  have h2 := Real.sin_add_pi (a - (k : ℝ) * (2 * Real.pi) - Real.pi)
  have e2 : a - (k : ℝ) * (2 * Real.pi) - Real.pi + Real.pi
      = a - (k : ℝ) * (2 * Real.pi) := by ring
  rw [e2] at h2
  have h3 := Real.cos_pi_div_two_sub (a - (k : ℝ) * (2 * Real.pi) - Real.pi)
  have e3 : Real.pi / 2 - (a - (k : ℝ) * (2 * Real.pi) - Real.pi)
      = (2 * (k : ℝ) + 3 / 2) * Real.pi - a := by ring
  rw [e3] at h3
  have habs := abs_le.mp hm
  have h4 : 1 - ((2 * (k : ℝ) + 3 / 2) * Real.pi - a) ^ 2 / 2 ≤
      Real.cos ((2 * (k : ℝ) + 3 / 2) * Real.pi - a) :=
    Real.one_sub_sq_div_two_le_cos
  have hsq : ((2 * (k : ℝ) + 3 / 2) * Real.pi - a) ^ 2 ≤ m ^ 2 := by
    nlinarith [habs.1, habs.2]
  rw [h1, h2, ← h3]
  linarith [h4, hsq]

/-- `sin 10.8 ≤ −0.98` (`10.8` is within `0.1956` of `3.5π`). -/
theorem sin_ten_point_eight_le : Real.sin (10.8 : ℝ) ≤ -0.98 := by
  have h := sin_le_near_trough 10.8 1 0.1956 ?_
  · linarith [h]
  · have h1 := Real.pi_gt_d6
    have h2 := Real.pi_lt_d6
    rw [abs_le]
    constructor <;> [nlinarith; nlinarith]

/-- `sin 4.5 ≤ −0.977` (`4.5` is within `0.2124` of `1.5π`). -/
theorem sin_four_point_five_le : Real.sin (4.5 : ℝ) ≤ -0.977 := by
  have h := sin_le_near_trough 4.5 0 0.2124 ?_
  · linarith [h]
  · have h1 := Real.pi_gt_d6
    have h2 := Real.pi_lt_d6
    rw [abs_le]
    constructor <;> [nlinarith; nlinarith]

/-- `sin 42.4 ≤ −0.999` (`42.4` is within `0.0116` of `13.5π`). -/
theorem sin_forty_two_point_four_le : Real.sin (42.4 : ℝ) ≤ -0.999 := by
  have h := sin_le_near_trough 42.4 6 0.0116 ?_
  · linarith [h]
  · have h1 := Real.pi_gt_d6
    have h2 := Real.pi_lt_d6
    rw [abs_le]
    constructor <;> [nlinarith; nlinarith]

/-- `sin 36 ≤ −0.991` (`36` is within `0.1284` of `11.5π`). -/
theorem sin_thirty_six_le : Real.sin (36 : ℝ) ≤ -0.991 := by
  have h := sin_le_near_trough 36 5 0.1284 ?_
  · linarith [h]
  · have h1 := Real.pi_gt_d6
    have h2 := Real.pi_lt_d6
    rw [abs_le]
    constructor <;> [nlinarith; nlinarith]

/-- `sin 61.2 ≤ −0.998` (`61.2` is within `0.0611` of `19.5π`). -/
theorem sin_sixty_one_point_two_le : Real.sin (61.2 : ℝ) ≤ -0.998 := by
  have h := sin_le_near_trough 61.2 9 0.0611 ?_
  · linarith [h]
  · have h1 := Real.pi_gt_d6
    have h2 := Real.pi_lt_d6
    rw [abs_le]
    constructor <;> [nlinarith; nlinarith]

/-- In a `36 × 284` field with `max_tier = 49` (morph's gradient of
length 50 on a large terminal), after one `propagate_waves` call at
`t = 0` the cell `(18, 36)` does **not** hold the midpoint plus the six
sine terms: that raw sum is below `0` — the six weighted sines add to
less than `−24` — so the clamp stores `0` instead.  (The distance of
`(18, 36)` from the grid center `(18, 142)` is exactly
`√11236 = 106`.) -/
theorem wave_field_cell_is_clamped_not_raw_sum :
    (((propagate_waves Real.sin (wave_field_init Real.sqrt 36 284 49) 1 0
        none).heights.getD 18 []).getD 36 0) ≠
      ((((49 / 2 : ℕ) : ℝ)) +
        (Real.sin (((36 : ℕ) : ℝ) * 0.3 + 0 * 2) * (((49 : ℕ) : ℝ) * 0.15) +
         Real.sin (((18 : ℕ) : ℝ) * 0.25 + 0 * 1.5) * (((49 : ℕ) : ℝ) * 0.12) +
         Real.sin ((((18 : ℕ) : ℝ) + ((36 : ℕ) : ℝ)) * 0.2 + 0 * 1.8) *
           (((49 : ℕ) : ℝ) * 0.1) +
         Real.sin (Real.sqrt (((((18 : ℕ) : ℤ) - ((36 / 2 : ℕ) : ℤ)) ^ 2 +
             (((36 : ℕ) : ℤ) - ((284 / 2 : ℕ) : ℤ)) ^ 2 : ℤ) : ℝ) * 0.4 - 0 * 2.5) *
           (((49 : ℕ) : ℝ) * 0.08) +
         Real.sin (((18 : ℕ) : ℝ) * 0.8 + ((36 : ℕ) : ℝ) * 0.6 + 0 * 4) *
           (((49 : ℕ) : ℝ) * 0.05)) +
        Real.sin (((18 : ℕ) : ℝ) * 1.2 + ((36 : ℕ) : ℝ) * 1.1 + 0 * 3) *
          (((49 : ℕ) : ℝ) * 0.03)) := by
  have hcell := propagate_waves_cell Real.sin Real.sqrt 36 284 49 1 0 18 36
    (by norm_num) (by norm_num)
  rw [hcell]
  have hdist : Real.sqrt (((((18 : ℕ) : ℤ) - ((36 / 2 : ℕ) : ℤ)) ^ 2 +
      (((36 : ℕ) : ℤ) - ((284 / 2 : ℕ) : ℤ)) ^ 2 : ℤ) : ℝ) = 106 := by
    rw [show (((((18 : ℕ) : ℤ) - ((36 / 2 : ℕ) : ℤ)) ^ 2 +
        (((36 : ℕ) : ℤ) - ((284 / 2 : ℕ) : ℤ)) ^ 2 : ℤ) : ℝ) = 11236 by norm_num]
    rw [show (11236 : ℝ) = 106 ^ 2 by norm_num]
    exact Real.sqrt_sq (by norm_num)
  have e1 : ((36 : ℕ) : ℝ) * 0.3 + 0 * 2 = 10.8 := by norm_num
  have e2 : ((18 : ℕ) : ℝ) * 0.25 + 0 * 1.5 = 4.5 := by norm_num
  have e3 : (((18 : ℕ) : ℝ) + ((36 : ℕ) : ℝ)) * 0.2 + 0 * 1.8 = 10.8 := by norm_num
  have e4 : (106 : ℝ) * 0.4 - 0 * 2.5 = 42.4 := by norm_num
  have e5 : ((18 : ℕ) : ℝ) * 0.8 + ((36 : ℕ) : ℝ) * 0.6 + 0 * 4 = 36 := by norm_num
  have e6 : ((18 : ℕ) : ℝ) * 1.2 + ((36 : ℕ) : ℝ) * 1.1 + 0 * 3 = 61.2 := by norm_num
  have c49 : ((49 : ℕ) : ℝ) = 49 := by norm_num
  have cmed : ((49 / 2 : ℕ) : ℝ) = 24 := by norm_num
  rw [hdist, e1, e2, e3, e4, e5, e6, c49, cmed]
  have hS : ((24 : ℝ)) +
      (Real.sin (10.8 : ℝ) * ((49 : ℝ) * 0.15) +
       Real.sin (4.5 : ℝ) * ((49 : ℝ) * 0.12) +
       Real.sin (10.8 : ℝ) * ((49 : ℝ) * 0.1) +
       Real.sin (42.4 : ℝ) * ((49 : ℝ) * 0.08) +
       Real.sin (36 : ℝ) * ((49 : ℝ) * 0.05)) +
      Real.sin (61.2 : ℝ) * ((49 : ℝ) * 0.03) < 0 := by
    nlinarith [sin_ten_point_eight_le, sin_four_point_five_le,
      sin_forty_two_point_four_le, sin_thirty_six_le, sin_sixty_one_point_two_le]
  intro heq
  rw [min_eq_right (le_trans (le_of_lt hS) (by norm_num : (0 : ℝ) ≤ 49)),
    max_eq_left (le_of_lt hS)] at heq
  exact absurd heq.symm (ne_of_lt hS)

end TerminalFlow
